import Mathlib

/-!
Verification of the ISIM automation framework's client-side reconciliation and
path-resolution layer against its natural-language specification.

The Python modules under `isimws/` are shallowly embedded: pure decision logic
becomes Lean functions, remote SOAP calls are modelled by passing their
results (search data, transport outcomes) as explicit parameters, and Python
exceptions become `Except String`.  Python strings are modelled by `String`
except in the path-resolver development, where lists of characters are used so
that Python's `str.split` can be reasoned about directly.
-/

set_option maxRecDepth 4000

namespace ISIMWS

/-- Values carried inside a SOAP attribute built by `build_attribute`: the
source passes both strings and ints (`eraccessoption` uses `[1]`, `[2]`, `[3]`). -/
inductive AttrVal where
  | str (s : String)
  | int (n : Nat)
deriving DecidableEq, Repr

/-- Wire attribute record built by `tools.build_attribute`: name plus a fixed
replace-operation marker, an encoding marker and a value list. -/
structure WSAttribute where
  name : String
  operation : Nat
  isEncoded : Bool
  values : List AttrVal
deriving DecidableEq, Repr

/-- Attribute record of an object returned by the remote service (an entry of
the object's `attributes.item` list): name plus value list. -/
structure SoapAttr where
  name : String
  values : List String
deriving DecidableEq, Repr

/-- Generic directory object as returned by `get`/`search` calls: the fixed
fields used by the embedded modules plus the variable attribute list. -/
structure Entity where
  itimDN : String
  name : String
  profileName : String
  description : String
  attributes : List SoapAttr
deriving DecidableEq, Repr

instance {ε α : Type} [DecidableEq ε] [DecidableEq α] :
    DecidableEq (Except ε α) := fun x y =>
  match x, y with
  | .ok a, .ok b => decidable_of_iff (a = b) (by simp)
  | .error a, .error b => decidable_of_iff (a = b) (by simp)
  | .ok _, .error _ => .isFalse (by simp)
  | .error _, .ok _ => .isFalse (by simp)

/-- ASCII lower-casing of a character, as Python's `str.lower` acts on the
ASCII operation and attribute names used by the source. -/
def pyCharLower (c : Char) : Char :=
  if 'A' ≤ c ∧ c ≤ 'Z' then Char.ofNat (c.toNat + 32) else c

/-- ASCII lower-casing of a string (Python `str.lower` on ASCII input). -/
def pyLower (s : String) : String :=
  ⟨s.data.map pyCharLower⟩

/-- Python list indexing `xs[i]`, raising `IndexError` when out of range. -/
def pyIndex {α : Type} (xs : List α) (i : Nat) : Except String α :=
  match xs[i]? with
  | some x => .ok x
  | none => .error ("IndexError: list index out of range")

/-- Python `del xs[i]`, raising `IndexError` when out of range. -/
def pyDel {α : Type} (xs : List α) (i : Nat) : Except String (List α) :=
  if i < xs.length then .ok (xs.eraseIdx i) else
    .error ("IndexError: list assignment index out of range")

/-- Multiset equality of two lists, modelling the
`Counter(xs) == Counter(ys)` comparisons of the source. -/
def counterEq {α : Type} [DecidableEq α] (xs ys : List α) : Prop :=
  (xs : Multiset α) = (ys : Multiset α)

instance {α : Type} [DecidableEq α] (xs ys : List α) : Decidable (counterEq xs ys) := by
  unfold counterEq; infer_instance

/-! ## `isimws.utilities.tools` -/

/-- Embedding of `tools.build_attribute`: builds a `WSAttribute` with the fixed
operation `0` and `isEncoded = False` markers. -/
def build_attribute (key : String) (value_list : List AttrVal) : WSAttribute :=
  { name := key, operation := 0, isEncoded := false, values := value_list }

/-- Embedding of `tools.get_soap_attribute`: case-insensitive lookup of an
attribute in the object's attribute list, `none` when the key is absent. -/
def get_soap_attribute (obj : Entity) (key : String) : Option (List String) :=
  (obj.attributes.find? (fun a => pyLower a.name == pyLower key)).map (·.values)

/-- Embedding of `tools.list_soap_attribute_keys`: all attribute keys of the
object, lower-cased. -/
def list_soap_attribute_keys (obj : Entity) : List String :=
  obj.attributes.map (fun a => pyLower a.name)

/-! ## `tools.version_compare` -/

/-- Drop a trailing build suffix matching the regex `_b\d+$` from a version
string (first step of `normalize` inside `version_compare`). -/
def stripBuildSuffix (v : List Char) : List Char :=
  let r := v.reverse
  let ds := r.takeWhile Char.isDigit
  let rest := r.drop ds.length
  match rest with
  | 'b' :: '_' :: pre => if ds.isEmpty then v else pre.reverse
  | _ => v

/-- Worker for stripping trailing `.0`-style components, acting on the
reversed character list: repeatedly drop a leading run of zeros followed by a
dot. -/
def stripZeroGroupsRev : Nat → List Char → List Char
  | 0, r => r
  | fuel + 1, r =>
    if 0 < (r.takeWhile (· = '0')).length ∧
        (r.drop (r.takeWhile (· = '0')).length).head? = some '.' then
      stripZeroGroupsRev fuel (r.drop (r.takeWhile (· = '0')).length).tail
    else r

/-- Drop trailing `.0`-style components matching the regex `(\.0+)*$` (second
step of `normalize` inside `version_compare`).  Each stripped group consumes
at least two characters, so `v.length` steps of the worker always suffice. -/
def stripTrailingZeroComponents (v : List Char) : List Char :=
  (stripZeroGroupsRev v.length v.reverse).reverse

/-- Python `int(s)` on a decimal numeral string; raises `ValueError` on the
empty string or non-digit characters. -/
def pyInt (s : List Char) : Except String Nat :=
  if s ≠ [] ∧ s.all Char.isDigit then
    .ok (s.foldl (fun acc c => acc * 10 + (c.toNat - '0'.toNat)) 0)
  else
    .error ("ValueError: invalid literal for int()")

/-- Split a character list on a single separator character (Python
`str.split` with a one-character separator, as used for `"."`). -/
def splitOnChar (sep : Char) : List Char → List (List Char)
  | [] => [[]]
  | c :: rest =>
    if c = sep then [] :: splitOnChar sep rest
    else
      match splitOnChar sep rest with
      | p :: ps => (c :: p) :: ps
      | [] => [[c]]

/-- The `normalize` helper inside `version_compare`: strip the build suffix
and trailing zero components, split on dots, convert each part to an int. -/
def versionNormalize (v : String) : Except String (List Nat) :=
  (splitOnChar '.' (stripTrailingZeroComponents (stripBuildSuffix v.data))).mapM pyInt

/-- Lexicographic comparison of Python int lists (Python `<` on lists). -/
def listLexLt : List Nat → List Nat → Bool
  | [], [] => false
  | [], _ :: _ => true
  | _ :: _, [] => false
  | x :: xs, y :: ys => if x < y then true else if y < x then false else listLexLt xs ys

/-- Embedding of `tools.version_compare`: `0` when the normalized versions are
equal, `1` when the first is greater, `-1` when it is less. -/
def version_compare (version1 version2 : String) : Except String Int := do
  let n1 ← versionNormalize version1
  let n2 ← versionNormalize version2
  if n1 = n2 then pure 0
  else if listLexLt n2 n1 then pure 1
  else pure (-1)

/-! ## `isimws.application.isimapplication` -/

/-- Result envelope produced by `create_return_object` and returned by
`invoke_soap_request`; the payload is not modelled (no claim concerns it). -/
structure Envelope where
  rc : Nat
  changed : Bool
  warnings : List String
deriving DecidableEq, Repr

/-- Embedding of `isimapplication.create_return_object` with its defaults. -/
def create_return_object (rc : Nat := 0) (warnings : List String := [])
    (changed : Bool := false) : Envelope :=
  { rc := rc, changed := changed, warnings := warnings }

/-- Outcome of the underlying zeep SOAP call inside `invoke_soap_request`:
success with some payload, a transport connection error, or a SOAP fault
carrying its fault code and message. -/
inductive SoapOutcome where
  | success
  | connectionError
  | fault (code message : String)
deriving DecidableEq, Repr

/-- Result of an `invoke_soap_request` call: either an envelope together with
a flag recording whether the remote service was contacted, or a raised
exception (`IBMError`, `IBMFatal`, or an uncaught Python error). -/
inductive InvokeResult where
  | ok (env : Envelope) (remoteContacted : Bool)
  | ibmError (msg : String)
  | ibmFatal (msg : String)
  | pyError (msg : String)
deriving DecidableEq, Repr

/-- Embedding of `isimapplication._is_version_supported`: `true` when either
version is unknown or the application version is not lower than required. -/
def is_version_supported (version : Option String) (requires_version : Option String) :
    Except String Bool :=
  match requires_version, version with
  | some r, some v => do
      let c ← version_compare v r
      pure (!(c < 0))
  | _, _ => pure true

/-- Operation-name tokens whose operations are presumed non-mutating by
`invoke_soap_request` (the tuple passed to `operation.lower().startswith`). -/
def nonMutatingStarts : List String :=
  ["get", "is", "login", "logout", "search", "lookup", "test", "find"]

/-- The `operation.lower().startswith((...))` test of `invoke_soap_request`. -/
def opLowerStarts (operation : String) : Bool :=
  nonMutatingStarts.any (fun p => p.data.isPrefixOf (pyLower operation).data)

/-- Embedding of `isimapplication.invoke_soap_request`: version gate, remote
call (outcome supplied as a parameter), connection-error handling, the
changed-hint assignment, and `_process_response` fault handling, in source
order.  Logging and payload serialization are omitted. -/
def invoke_soap_request (operation : String) (requires_version : Option String)
    (version : Option String) (ignore_error : Bool) (outcome : SoapOutcome)
    (warnings : List String) : InvokeResult :=
  match is_version_supported version requires_version with
  | .error e => .pyError e
  | .ok supported =>
    if !supported then
      if !ignore_error then
        .ibmError ("API invoked requires minimum version")
      else
        .ok (create_return_object 1 warnings false) false
    else
      let env0 := create_return_object 0 warnings false
      match outcome with
      | .connectionError =>
        if !ignore_error then
          .ibmError ("HTTP Return code: 502")
        else
          let env1 := { env0 with rc := 502 }
          let env2 := if !opLowerStarts operation then { env1 with changed := true } else env1
          .ok env2 true
      | .success =>
        let env1 := if !opLowerStarts operation then { env0 with changed := true } else env0
        .ok { env1 with rc := 0 } true
      | .fault code message =>
        let env1 := if !opLowerStarts operation then { env0 with changed := true } else env0
        let env2 := { env1 with rc := 500 }
        if code = "axis2ns1:Server" ∧ message = "Internal Error" then
          .ibmFatal ("HTTP Return code: 500. Fault message: " ++ message)
        else if !ignore_error then
          .ibmError ("HTTP Return code: 500. Fault message: " ++ message)
        else
          .ok { env2 with changed := false } true

/-! ## Claims C8, C9, C10: transport adapter behaviour -/

/-- C8: for an operation declaring a minimum remote-service version, if the
connected service's version compares lower under `version_compare` (the
dotted-numeric comparator trimming trailing `.0` components and a trailing
`_b<digits>` suffix), the call short-circuits without contacting the remote
service: return code 1 when the caller tolerates errors, a raised `IBMError`
otherwise. -/
theorem claim_C8_version_gate (op req ver : String) (outcome : SoapOutcome)
    (w : List String) (c : Int) (hc : version_compare ver req = .ok c) (hlt : c < 0) :
    invoke_soap_request op (some req) (some ver) true outcome w =
      .ok { rc := 1, changed := false, warnings := w } false ∧
    invoke_soap_request op (some req) (some ver) false outcome w =
      .ibmError "API invoked requires minimum version" := by
  have hsup : is_version_supported (some ver) (some req) = .ok false := by
    simp only [is_version_supported]
    rw [hc]
    simp [Bind.bind, Except.bind, pure, Except.pure, hlt]
  constructor <;>
    simp [invoke_soap_request, hsup, create_return_object]

/-- Closed instance of the version gate: `requiresVersion="5.0"` against a
connected service reporting version `"4.9"` short-circuits with return code 1
(tolerant) or raises (non-tolerant), never contacting the remote service. -/
theorem claim_C8_version_gate_witness :
    invoke_soap_request "createPerson" (some "5.0") (some "4.9") true .success [] =
      .ok { rc := 1, changed := false, warnings := [] } false ∧
    invoke_soap_request "createPerson" (some "5.0") (some "4.9") false .success [] =
      .ibmError "API invoked requires minimum version" :=
  claim_C8_version_gate "createPerson" "5.0" "4.9" .success [] (-1) (by decide) (by decide)

/-- C9: the default changed flag of the envelope returned by
`invoke_soap_request` is `false` exactly when the operation name starts,
case-insensitively, with one of `get`, `is`, `login`, `logout`, `search`,
`lookup`, `test`, `find`. -/
theorem claim_C9_changed_hint (op : String) (ver : Option String) (ign : Bool)
    (w : List String) (env : Envelope) (contacted : Bool)
    (h : invoke_soap_request op none ver ign .success w = .ok env contacted) :
    env.changed = false ↔
      ∃ p ∈ nonMutatingStarts, p.data.isPrefixOf (pyLower op).data = true := by
  have hsup : is_version_supported ver none = .ok true := by
    unfold is_version_supported
    cases ver <;> rfl
  rw [invoke_soap_request, hsup] at h
  by_cases hop : opLowerStarts op = true
  · simp [hop, create_return_object] at h
    rw [← h.1]
    simpa [opLowerStarts, List.any_eq_true] using hop
  · simp [hop, create_return_object] at h
    rw [← h.1]
    simp only [opLowerStarts, List.any_eq_true] at hop
    simpa using hop

/-- Closed instance of the changed hint: `searchRoles` yields a default
`changed = false` because it starts with `search`. -/
theorem claim_C9_changed_hint_witness :
    ({ rc := 0, changed := false, warnings := [] } : Envelope).changed = false ↔
      ∃ p ∈ nonMutatingStarts, p.data.isPrefixOf (pyLower "searchRoles").data = true :=
  claim_C9_changed_hint "searchRoles" none true []
    { rc := 0, changed := false, warnings := [] } true (by decide)

/-- C10 counterexample: a tolerated connection error on a mutating operation
name yields return code 502 with `changed = true`, because the changed-hint
assignment runs after `_process_connection_error` and `_process_response`
skips envelopes whose return code is already non-zero.  This refutes the
claim that every non-zero return code comes with `changed = false`. -/
theorem claim_C10_counterexample :
    invoke_soap_request "createStaticRole" none none true .connectionError [] =
      .ok { rc := 502, changed := true, warnings := [] } true := by decide

/-- C10 amended: whenever `invoke_soap_request` returns an envelope with a
non-zero return code, `changed = false` on every path except the tolerated
connection-error path (return code 502), where `changed` instead equals the
operation-name hint, so a failed mutating call is reported as changed. -/
theorem claim_C10_failed_call_changed (op : String) (rv ver : Option String)
    (ign : Bool) (outcome : SoapOutcome) (w : List String) (env : Envelope)
    (contacted : Bool)
    (h : invoke_soap_request op rv ver ign outcome w = .ok env contacted)
    (hrc : env.rc ≠ 0) :
    (env.rc ≠ 502 → env.changed = false) ∧
    (env.rc = 502 → env.changed = !opLowerStarts op) := by
  rw [invoke_soap_request] at h
  cases hs : is_version_supported ver rv with
  | error e =>
    rw [hs] at h
    exact absurd h (by simp)
  | ok supported =>
    rw [hs] at h
    by_cases hsup : supported
    · simp only [hsup, Bool.not_true, Bool.false_eq_true, if_false] at h
      cases outcome with
      | success =>
        by_cases hop : opLowerStarts op = true <;>
          simp [hop, create_return_object] at h <;>
          rw [← h.1] at hrc <;> simp at hrc
      | connectionError =>
        by_cases hig : ign
        · simp only [hig, Bool.not_true, Bool.false_eq_true, if_false] at h
          by_cases hop : opLowerStarts op = true <;>
            simp [hop, create_return_object] at h <;>
            rw [← h.1] <;> simp [hop]
        · simp [hig] at h
      | fault code message =>
        by_cases hfatal : code = "axis2ns1:Server" ∧ message = "Internal Error"
        · simp [hfatal] at h
        · by_cases hig : ign
          · simp only [hfatal, if_false, hig, Bool.not_true, Bool.false_eq_true] at h
            by_cases hop : opLowerStarts op = true <;>
              simp [hop, create_return_object] at h <;>
              rw [← h.1] <;> simp
          · simp [hfatal, hig] at h
    · simp only [hsup] at h
      by_cases hig : ign
      · simp [hig, create_return_object] at h
        rw [← h.1]
        simp
      · simp [hig] at h

/-- Closed instance of the amended C10 statement at a tolerated SOAP fault:
return code 500 comes with `changed = false`. -/
theorem claim_C10_failed_call_changed_witness :
    ((500 : Nat) ≠ 502 → false = false) ∧ ((500 : Nat) = 502 → false = !opLowerStarts "createStaticRole") :=
  claim_C10_failed_call_changed "createStaticRole" none none true
    (.fault "soapenv:Server" "CTGIMS001E") []
    { rc := 500, changed := false, warnings := [] } true (by decide) (by decide)

/-! ## Remote mutating calls and apply results

The `apply` reconciliation functions are embedded as pure decision functions:
the remote search results they consume are passed as parameters, and the
mutating remote calls they would issue are recorded in the result. -/

/-- Mutating remote call issued by an `apply` function.  The attribute lists
are the ones assembled by the corresponding `_create`/`_modify` helper; for
the service kind only the fact of the call is recorded, since no claim
concerns the service request payload. -/
inductive RemoteCall where
  | createRole (container_dn name : String) (attrs : List WSAttribute)
  | modifyRole (role_dn : String) (attrs : List WSAttribute)
  | createContainer (parent_dn profileName name : String) (attrs : List WSAttribute)
  | modifyContainer (container_dn : String) (attrs : List WSAttribute)
  | createAccountService (container_dn name : String)
  | modifyAccountService (service_dn : String)
deriving DecidableEq, Repr

/-- Result of an `apply` call: the mutating remote calls issued together with
the returned envelope fields.  Create and modify paths assume remote success
(their envelopes come from `invoke_soap_request` on a mutating operation
name, hence `changed = true`). -/
structure ApplyResult where
  calls : List RemoteCall
  rc : Nat
  changed : Bool
  warnings : List String
deriving DecidableEq, Repr

/-! ## `isimws.isim.role` -/

namespace Role

/-- Embedding of `role._get_role_attribute`: case-sensitive lookup of an
attribute in the role's attribute list, `none` when the key is absent. -/
def get_role_attribute (role_object : Entity) (key : String) : Option (List String) :=
  (role_object.attributes.find? (fun a => a.name == key)).map (·.values)

/-- Access badge passed to the role functions: a dict with keys `text` and
`colour`. -/
structure Badge where
  text : String
  colour : String
deriving DecidableEq, Repr

/-- Description segment of `role._build_role_attributes_list` (source lines
586-587). -/
def descSegment (description : Option String) : List WSAttribute :=
  match description with
  | none => []
  | some d => [build_attribute "description" [.str d]]

/-- Classification segment of `role._build_role_attributes_list` (source
lines 589-597). -/
def clsSegment (role_classification : Option String) : Except String (List WSAttribute) :=
  match role_classification with
  | none => pure []
  | some c =>
    if pyLower c = "application" then
      pure [build_attribute "erroleclassification" [.str "role.classification.application"]]
    else if pyLower c = "business" then
      pure [build_attribute "erroleclassification" [.str "role.classification.business"]]
    else
      .error (c ++ "is not a valid role classification. Must be 'application' or 'business'.")

/-- Owner segment of `role._build_role_attributes_list` (source lines
599-604): the two owner lists share a single merged `owner` attribute; either
list being present produces the whole attribute. -/
def ownerSegment (role_owners user_owners : Option (List String)) : List WSAttribute :=
  match role_owners, user_owners with
  | some r, some u => [build_attribute "owner" ((r ++ u).map .str)]
  | some r, none => [build_attribute "owner" (r.map .str)]
  | none, some u => [build_attribute "owner" (u.map .str)]
  | none, none => []

/-- Access-option segment of `role._build_role_attributes_list` (source lines
606-613); an enabled access with `common_access = None` appends nothing. -/
def accessOptionSegment (enable_access common_access : Option Bool) : List WSAttribute :=
  match enable_access with
  | none => []
  | some false => [build_attribute "eraccessoption" [.int 1]]
  | some true =>
    match common_access with
    | some false => [build_attribute "eraccessoption" [.int 2]]
    | some true => [build_attribute "eraccessoption" [.int 3]]
    | none => []

/-- Access-description segment of `role._build_role_attributes_list` (source
lines 615-616): a second attribute fed from the same description argument. -/
def accessDescSegment (description : Option String) : List WSAttribute :=
  match description with
  | none => []
  | some d => [build_attribute "eraccessdescription" [.str d]]

/-- Access-type segment of `role._build_role_attributes_list` (source lines
618-629). -/
def accessTypeSegment (access_type : Option String) : Except String (List WSAttribute) :=
  match access_type with
  | none => pure []
  | some t =>
    if pyLower t = "application" then
      pure [build_attribute "erobjectprofilename" [.str "Application"]]
    else if pyLower t = "sharedfolder" then
      pure [build_attribute "erobjectprofilename" [.str "SharedFolder"]]
    else if pyLower t = "emailgroup" then
      pure [build_attribute "erobjectprofilename" [.str "MailGroup"]]
    else if pyLower t = "role" then
      pure [build_attribute "erobjectprofilename" [.str "AccessRole"]]
    else
      .error (t ++ "is not a valid access type. Must be 'application', 'sharedfolder', 'emailgroup', or 'role'.")

/-- Image-URI segment of `role._build_role_attributes_list` (source lines
631-632). -/
def imageUriSegment (access_image_uri : Option String) : List WSAttribute :=
  match access_image_uri with
  | none => []
  | some u => [build_attribute "erimageuri" [.str u]]

/-- Search-terms segment of `role._build_role_attributes_list` (source lines
634-635). -/
def termsSegment (access_search_terms : Option (List String)) : List WSAttribute :=
  match access_search_terms with
  | none => []
  | some ts => [build_attribute "eraccesstag" (ts.map .str)]

/-- Additional-info segment of `role._build_role_attributes_list` (source
lines 637-638). -/
def infoSegment (access_additional_info : Option String) : List WSAttribute :=
  match access_additional_info with
  | none => []
  | some i => [build_attribute "eradditionalinformation" [.str i]]

/-- Badge segment of `role._build_role_attributes_list` (source lines
640-644). -/
def badgeSegment (access_badges : Option (List Badge)) : List WSAttribute :=
  match access_badges with
  | none => []
  | some bs => [build_attribute "erbadge" (bs.map (fun b => .str (b.text ++ "~" ++ b.colour)))]

/-- Assignment-attribute segment of `role._build_role_attributes_list`
(source lines 646-647). -/
def assignSegment (assignment_attributes : Option (List String)) : List WSAttribute :=
  match assignment_attributes with
  | none => []
  | some as_ => [build_attribute "erroleassignmentkey" (as_.map .str)]

/-- Embedding of `role._build_role_attributes_list`: assembles the attribute
list for a create or modify request by appending the per-field segments in
source order; `none` arguments are left out (no-change), the owner lists
share a single merged `owner` attribute. -/
def build_role_attributes_list
    (role_classification : Option String)
    (description : Option String)
    (role_owners : Option (List String))
    (user_owners : Option (List String))
    (enable_access : Option Bool)
    (common_access : Option Bool)
    (access_type : Option String)
    (access_image_uri : Option String)
    (access_search_terms : Option (List String))
    (access_additional_info : Option String)
    (access_badges : Option (List Badge))
    (assignment_attributes : Option (List String)) :
    Except String (List WSAttribute) := do
  let clsSeg ← clsSegment role_classification
  let typeSeg ← accessTypeSegment access_type
  pure (descSegment description ++ clsSeg ++ ownerSegment role_owners user_owners ++
    accessOptionSegment enable_access common_access ++ accessDescSegment description ++
    typeSeg ++ imageUriSegment access_image_uri ++ termsSegment access_search_terms ++
    infoSegment access_additional_info ++ badgeSegment access_badges ++
    assignSegment assignment_attributes)

/-- Desired role configuration passed to `role.apply`; optional fields model
arguments a caller may pass as `None` (replaced by empty defaults inside
`apply`). -/
structure Config where
  container_dn : String
  name : String
  role_classification : String
  description : Option String
  role_owners : Option (List String)
  user_owners : Option (List String)
  enable_access : Option Bool
  common_access : Option Bool
  access_type : Option String
  access_image_uri : Option String
  access_search_terms : Option (List String)
  access_additional_info : Option String
  access_badges : Option (List Badge)
  assignment_attributes : Option (List String)
deriving DecidableEq, Repr

/-- Classification block of the `role.apply` diff (source lines 391-407). -/
def classificationDiff (role_classification : String) (existing : Entity) :
    Except String (Bool × Option String) :=
  match get_role_attribute existing "erroleclassification" with
  | none => pure (true, some role_classification)
  | some vs =>
    if pyLower role_classification = "application" then do
      let v0 ← pyIndex vs 0
      if v0 ≠ "role.classification.application" then pure (true, some role_classification)
      else pure (false, none)
    else if pyLower role_classification = "business" then do
      let v0 ← pyIndex vs 0
      if v0 ≠ "role.classification.business" then pure (true, some role_classification)
      else pure (false, none)
    else
      .error (role_classification ++ "is not a valid role classification. Must be 'application' or 'business'.")

/-- Description block of the `role.apply` diff (source lines 409-415): the
desired description is compared both against the role's top-level
`description` field and against the `description` attribute. -/
def descriptionDiff (description : String) (existing : Entity) :
    Except String (Bool × Option String) :=
  match get_role_attribute existing "description" with
  | none => pure (true, some description)
  | some vs =>
    if description ≠ existing.description then pure (true, some description)
    else do
      let v0 ← pyIndex vs 0
      if description ≠ v0 then pure (true, some description)
      else pure (false, none)

/-- Owner block of the `role.apply` diff (source lines 417-426): the merged
desired owner list is compared as a multiset against the existing merged
`owner` attribute. -/
def ownersDiff (role_owners user_owners : List String) (existing : Entity) :
    Bool × Option (List String) × Option (List String) :=
  match get_role_attribute existing "owner" with
  | none => (true, some role_owners, some user_owners)
  | some ex =>
    if ¬ counterEq (role_owners ++ user_owners) ex then (true, some role_owners, some user_owners)
    else (false, none, none)

/-- Access-option block of the `role.apply` diff (source lines 428-440):
tri-state comparison against the `eraccessoption` attribute. -/
def accessOptionDiff (enable_access common_access : Bool) (existing : Entity) :
    Except String (Bool × Option Bool × Option Bool) :=
  match get_role_attribute existing "eraccessoption" with
  | none => pure (true, some enable_access, some common_access)
  | some vs =>
    if ¬ enable_access then do
      let v0 ← pyIndex vs 0
      if v0 ≠ "1" then pure (true, some enable_access, some common_access)
      else pure (false, none, none)
    else if ¬ common_access then do
      let v0 ← pyIndex vs 0
      if v0 ≠ "2" then pure (true, some enable_access, some common_access)
      else pure (false, none, none)
    else do
      let v0 ← pyIndex vs 0
      if v0 ≠ "3" then pure (true, some enable_access, some common_access)
      else pure (false, none, none)

/-- Access-type block of the `role.apply` diff (source lines 442-469). -/
def accessTypeDiff (access_type : String) (existing : Entity) :
    Except String (Bool × Option String) :=
  match get_role_attribute existing "erobjectprofilename" with
  | none => pure (true, some access_type)
  | some vs =>
    if pyLower access_type = "application" then do
      let v0 ← pyIndex vs 0
      if v0 ≠ "Application" then pure (true, some access_type) else pure (false, none)
    else if pyLower access_type = "sharedfolder" then do
      let v0 ← pyIndex vs 0
      if v0 ≠ "SharedFolder" then pure (true, some access_type) else pure (false, none)
    else if pyLower access_type = "emailgroup" then do
      let v0 ← pyIndex vs 0
      if v0 ≠ "MailGroup" then pure (true, some access_type) else pure (false, none)
    else if pyLower access_type = "role" then do
      let v0 ← pyIndex vs 0
      if v0 ≠ "AccessRole" then pure (true, some access_type) else pure (false, none)
    else
      .error (access_type ++ "is not a valid access type. Must be 'application', 'sharedfolder', 'emailgroup', or 'role'.")

/-- Image-URI block of the `role.apply` diff (source lines 471-481): an
absent attribute with an empty desired URI counts as no change. -/
def imageUriDiff (access_image_uri : String) (existing : Entity) :
    Except String (Bool × Option String) :=
  match get_role_attribute existing "erimageuri" with
  | none =>
    if access_image_uri ≠ "" then pure (true, some access_image_uri)
    else pure (false, none)
  | some vs => do
    let v0 ← pyIndex vs 0
    if access_image_uri ≠ v0 then pure (true, some access_image_uri)
    else pure (false, none)

/-- Search-terms block of the `role.apply` diff (source lines 483-489). -/
def searchTermsDiff (access_search_terms : List String) (existing : Entity) :
    Bool × Option (List String) :=
  match get_role_attribute existing "eraccesstag" with
  | none => (true, some access_search_terms)
  | some ex =>
    if ¬ counterEq access_search_terms ex then (true, some access_search_terms)
    else (false, none)

/-- Additional-info block of the `role.apply` diff (source lines 491-497). -/
def additionalInfoDiff (access_additional_info : String) (existing : Entity) :
    Except String (Bool × Option String) :=
  match get_role_attribute existing "eradditionalinformation" with
  | none => pure (true, some access_additional_info)
  | some vs => do
    let v0 ← pyIndex vs 0
    if access_additional_info ≠ v0 then pure (true, some access_additional_info)
    else pure (false, none)

/-- Badge block of the `role.apply` diff (source lines 499-510): badges are
encoded as `text~colour` strings and compared as a multiset. -/
def badgesDiff (access_badges : List Badge) (existing : Entity) :
    Bool × Option (List Badge) :=
  let new_badges := access_badges.map (fun b => b.text ++ "~" ++ b.colour)
  match get_role_attribute existing "erbadge" with
  | none => (true, some access_badges)
  | some ex =>
    if ¬ counterEq new_badges ex then (true, some access_badges)
    else (false, none)

/-- Assignment-attribute block of the `role.apply` diff (source lines
512-518). -/
def assignmentDiff (assignment_attributes : List String) (existing : Entity) :
    Bool × Option (List String) :=
  match get_role_attribute existing "erroleassignmentkey" with
  | none => (true, some assignment_attributes)
  | some ex =>
    if ¬ counterEq assignment_attributes ex then (true, some assignment_attributes)
    else (false, none)

/-- Embedding of `role.apply`: validation, `None`-to-empty defaulting, then
create / diff-and-modify / hard ambiguity error depending on the number of
search results for the exact-name filter (supplied as a parameter).  Note
that `role.apply` raises a `ValueError` when more than one result is found. -/
def apply (cfg : Config) (search_results : List Entity) : Except String ApplyResult := do
  if ¬ (cfg.container_dn.length > 0 ∧ cfg.name.length > 0 ∧
      cfg.role_classification.length > 0) then
    .error "Invalid role configuration. container_dn, name, and role_classification must have non-empty string values."
  else do
  let description := cfg.description.getD ""
  let role_owners := cfg.role_owners.getD []
  let user_owners := cfg.user_owners.getD []
  let enable_access := cfg.enable_access.getD false
  let common_access := cfg.common_access.getD false
  let access_type := cfg.access_type.getD ""
  let access_image_uri := cfg.access_image_uri.getD ""
  let access_search_terms := cfg.access_search_terms.getD []
  let access_additional_info := cfg.access_additional_info.getD ""
  let access_badges := cfg.access_badges.getD []
  let assignment_attributes := cfg.assignment_attributes.getD []
  match search_results with
  | [] => do
    let attrs ← build_role_attributes_list (some cfg.role_classification) (some description)
      (some role_owners) (some user_owners) (some enable_access) (some common_access)
      (some access_type) (some access_image_uri) (some access_search_terms)
      (some access_additional_info) (some access_badges) (some assignment_attributes)
    pure { calls := [.createRole cfg.container_dn cfg.name attrs], rc := 0,
           changed := true, warnings := [] }
  | [existing_role] => do
    let (m1, rcOpt) ← classificationDiff cfg.role_classification existing_role
    let (m2, dOpt) ← descriptionDiff description existing_role
    let (m3, roOpt, uoOpt) := ownersDiff role_owners user_owners existing_role
    let (m4, eaOpt, caOpt) ← accessOptionDiff enable_access common_access existing_role
    let (m5, atOpt) ← accessTypeDiff access_type existing_role
    let (m6, uriOpt) ← imageUriDiff access_image_uri existing_role
    let (m7, termsOpt) := searchTermsDiff access_search_terms existing_role
    let (m8, infoOpt) ← additionalInfoDiff access_additional_info existing_role
    let (m9, badgesOpt) := badgesDiff access_badges existing_role
    let (m10, assignOpt) := assignmentDiff assignment_attributes existing_role
    if m1 || m2 || m3 || m4 || m5 || m6 || m7 || m8 || m9 || m10 then do
      let attrs ← build_role_attributes_list rcOpt dOpt roOpt uoOpt eaOpt caOpt atOpt
        uriOpt termsOpt infoOpt badgesOpt assignOpt
      pure { calls := [.modifyRole existing_role.itimDN attrs], rc := 0,
             changed := true, warnings := [] }
    else
      pure { calls := [], rc := 0, changed := false, warnings := [] }
  | _ =>
    .error ("More than one instance of the role '" ++ cfg.name ++ "' was found in container '" ++
      cfg.container_dn ++ "'. Cannot determine what action to take.")

end Role

/-! ## `isimws.utilities.dnencoder.get_unique_object` -/

/-- Python `str.split` with a two-character separator `ab`, acting on
character lists.  Both separators used by the resolver, `"//"` and `"::"`,
have two characters. -/
def pySplit2 (a b : Char) : List Char → List (List Char)
  | [] => [[]]
  | [c] => [[c]]
  | c :: d :: rest =>
    if c = a ∧ d = b then [] :: pySplit2 a b rest
    else
      match pySplit2 a b (d :: rest) with
      | p :: ps => (c :: p) :: ps
      | [] => [[c]]

/-- String-level wrapper for `pySplit2`. -/
def pySplit2S (a b : Char) (s : String) : List String :=
  (pySplit2 a b s.data).map (fun l => ⟨l⟩)

/-- Backwards filter loop of `DNEncoder.get_unique_object` (source lines
283-300): the index range `len-1 .. 0` is fixed up front; at each index the
entry is deleted when the name check fails and deleted again when the parent
check fails, exactly as the source does (there is no `continue` between the
two checks). -/
def guoFilterLoop {ε σ : Type} [DecidableEq σ] (nameBad : ε → Bool)
    (parentOf : ε → Except String σ) (container_dn : σ) :
    List ε → Nat → Except String (List ε)
  | data, 0 => .ok data
  | data, i + 1 => do
    let result ← pyIndex data i
    let d1 ← if nameBad result then pyDel data i else pure data
    let p ← parentOf result
    let d2 ← if p ≠ container_dn then pyDel d1 i else pure d1
    guoFilterLoop nameBad parentOf container_dn d2 i

/-- Parent-link extraction inside the filter loop:
`get_soap_attribute(result, "erparent")[0]`.  Subscripting `None` is a Python
`TypeError`; subscripting an empty list an `IndexError`. -/
def erparentOf (e : Entity) : Except String String :=
  match get_soap_attribute e "erparent" with
  | none => .error "TypeError: NoneType object is not subscriptable"
  | some vs => pyIndex vs 0

/-- Embedding of `DNEncoder.get_unique_object` for the non-person,
non-provisioning-policy object types (role, service, container after its
prefix split): the raw search results are filtered by exact name and exact
direct parent, then at most one survivor is allowed — more than one raises,
zero yields `None`. -/
def get_unique_object (object_type name container_path container_dn : String)
    (search_data : List Entity) : Except String (Option Entity) := do
  let filtered ← guoFilterLoop (fun e => e.name != name) erparentOf container_dn
    search_data search_data.length
  if filtered.length > 1 then
    .error ("Unable to uniquely identify object. More than one " ++ object_type ++
      " was found with the name " ++ name ++ " in " ++ container_path ++ ".")
  else
    match filtered with
    | [] => .ok none
    | x :: _ => .ok (some x)

/-! ## `isimws.isim.container` -/

namespace Container

/-- Create-side kind marker of `container._create` (source lines 376-383):
`BPOrganization` is submitted as `BusinessPartnerOrganization` and
`AdminDomain` as `SecurityDomain`; the other profiles are submitted
unchanged. -/
def createProfileName (profile : String) : String :=
  if profile = "BPOrganization" then "BusinessPartnerOrganization"
  else if profile = "AdminDomain" then "SecurityDomain"
  else profile

/-- Search-side profile argument of `container.search` (source lines 53-61):
the caller-facing profile token is validated against the five container
kinds and submitted unchanged to `searchContainerByName`. -/
def searchProfileArgument (profile : String) : Except String String :=
  if profile = "Organization" ∨ profile = "OrganizationalUnit" ∨ profile = "Location" ∨
      profile = "AdminDomain" ∨ profile = "BPOrganization" then
    .ok profile
  else
    .error ("'" ++ profile ++ "' is not a valid container profile. Valid values are 'Organization', 'OrganizationalUnit', 'BPOrganization', 'Location', or 'AdminDomain'.")

/-- Message used by the invalid-profile branches of
`_build_container_attributes_list`. -/
def invalidProfileMsg (profile : String) : String :=
  "'" ++ profile ++ "' is not a valid container profile. Valid values are 'Organization', 'OrganizationalUnit', 'BPOrganization', 'Location', or 'AdminDomain'."

/-- Name segment of `container._build_container_attributes_list` (source
lines 506-515): the name is mapped onto the profile-specific attribute. -/
def nameSegment (profile : String) (name : Option String) :
    Except String (List WSAttribute) :=
  match name with
  | none => pure []
  | some n =>
    if profile = "Organization" then pure [build_attribute "o" [.str n]]
    else if profile = "OrganizationalUnit" ∨ profile = "BPOrganization" ∨
        profile = "AdminDomain" then
      pure [build_attribute "ou" [.str n]]
    else if profile = "Location" then pure [build_attribute "l" [.str n]]
    else .error (invalidProfileMsg profile)

/-- Description segment of `container._build_container_attributes_list`
(source lines 517-530): an empty description is sent as an attribute with an
empty value list, `BPOrganization` has no description. -/
def containerDescSegment (profile : String) (description : Option String) :
    Except String (List WSAttribute) :=
  match description with
  | none => pure []
  | some d =>
    if profile = "Organization" ∨ profile = "OrganizationalUnit" ∨
        profile = "Location" ∨ profile = "AdminDomain" then
      if d = "" then pure [build_attribute "description" []]
      else pure [build_attribute "description" [.str d]]
    else if profile = "BPOrganization" then pure []
    else .error (invalidProfileMsg profile)

/-- People segment of `container._build_container_attributes_list` (source
lines 532-543): supervisor, sponsor or administrators depending on the
profile. -/
def peopleSegment (profile : String) (associated_people_dns : Option (List String)) :
    Except String (List WSAttribute) :=
  match associated_people_dns with
  | none => pure []
  | some dns =>
    if profile = "Organization" then pure []
    else if profile = "OrganizationalUnit" ∨ profile = "Location" then do
      let d0 ← pyIndex dns 0
      pure [build_attribute "erSupervisor" [.str d0]]
    else if profile = "BPOrganization" then do
      let d0 ← pyIndex dns 0
      pure [build_attribute "erSponsor" [.str d0]]
    else if profile = "AdminDomain" then
      pure [build_attribute "erAdministrator" (dns.map .str)]
    else .error (invalidProfileMsg profile)

/-- Embedding of `container._build_container_attributes_list`: assembles the
attribute list for a create or modify request by appending the three segments
in source order; `none` arguments are left out (no-change). -/
def build_container_attributes_list (profile : String) (name : Option String)
    (description : Option String) (associated_people_dns : Option (List String)) :
    Except String (List WSAttribute) := do
  let nameSeg ← nameSegment profile name
  let descSeg ← containerDescSegment profile description
  let peopleSeg ← peopleSegment profile associated_people_dns
  pure (nameSeg ++ descSeg ++ peopleSeg)

/-- Profile-to-prefix validation of `container.apply` (source lines 165-178). -/
def profileToPfx (profile : String) : Except String String :=
  if profile = "Organization" then .ok "o"
  else if profile = "OrganizationalUnit" then .ok "ou"
  else if profile = "BPOrganization" then .ok "bp"
  else if profile = "Location" then .ok "lo"
  else if profile = "AdminDomain" then .ok "ad"
  else
    .error ("'" ++ profile ++ "' is not a valid container profile. Valid values are 'Organization', 'OrganizationalUnit', 'BPOrganization', 'Location', or 'AdminDomain'.")

/-- Prefix-to-profile mapping of the container branch of
`DNEncoder.get_unique_object` (source lines 253-265). -/
def pfxToProfile (p : String) : Except String String :=
  if p = "o" then .ok "Organization"
  else if p = "ou" then .ok "OrganizationalUnit"
  else if p = "bp" then .ok "BPOrganization"
  else if p = "lo" then .ok "Location"
  else if p = "ad" then .ok "AdminDomain"
  else
    .error (p ++ " is not a valid value for a profile prefix. Valid values are 'o', 'ou', 'bp', 'lo', and 'ad'.")

/-- Embedding of `container.apply`.  The resolver outcomes are parameters:
`parent_container_dn` is the result of `container_path_to_dn` on
`parent_container_path`, `associated_people_dns` the resolved people DNs
(the source resolves them only for non-Organization profiles), and
`search_results` the raw results of the container search performed inside
`get_unique_object`, whose exact-name and direct-parent filter and
uniqueness check are embedded here. -/
def apply (parent_container_path profile name : String) (description : Option String)
    (associated_people_dns : List String) (parent_container_dn : String)
    (search_results : List Entity) (check_mode force : Bool) :
    Except String ApplyResult := do
  if ¬ (parent_container_path.length > 0 ∧ profile.length > 0 ∧ name.length > 0) then
    .error "Invalid container configuration. parent_container_path, profile, and name must have non-empty string values."
  else do
  let profile_pfx ← profileToPfx profile
  let description := description.getD ""
  -- the container branch of get_unique_object: split the composite name and
  -- re-derive the search profile, then filter and enforce uniqueness
  let name_components := pySplit2S ':' ':' (profile_pfx ++ "::" ++ name)
  if name_components.length ≠ 2 then
    .error ((profile_pfx ++ "::" ++ name) ++ " is not a valid value for container name. Make sure you include the profile prefix component.")
  else do
  let nc0 ← pyIndex name_components 0
  let _searchProfile ← pfxToProfile nc0
  let searched_name ← pyIndex name_components 1
  let filtered ← guoFilterLoop (fun e => e.name != searched_name) erparentOf
    parent_container_dn search_results search_results.length
  let existing_container ←
    if filtered.length > 1 then
      .error ("Unable to uniquely identify object. More than one container was found with the name " ++ searched_name ++ " in " ++ parent_container_path ++ ".")
    else
      match filtered with
      | [] => pure (none : Option Entity)
      | x :: _ => pure (some x)
  match existing_container with
  | none => mkCreate profile name description associated_people_dns parent_container_dn check_mode
  | some ex =>
    if force then
      mkCreate profile name description associated_people_dns parent_container_dn check_mode
    else do
      let existing_description := get_soap_attribute ex "description"
      let (mDesc, descOpt) ←
        if profile = "Organization" ∨ profile = "OrganizationalUnit" ∨
            profile = "Location" ∨ profile = "AdminDomain" then
          match existing_description with
          | none =>
            if description ≠ "" then pure (true, some description)
            else pure (false, (none : Option String))
          | some vs => do
            let v0 ← pyIndex vs 0
            if description ≠ v0 then pure (true, some description)
            else pure (false, none)
        else
          pure (false, none)
      let existing_supervisor := get_soap_attribute ex "erSupervisor"
      let existing_sponsor := get_soap_attribute ex "erSponsor"
      let existing_administrators := get_soap_attribute ex "erAdministrator"
      let (mPeople, apdOpt) ←
        if profile = "OrganizationalUnit" ∨ profile = "Location" then
          let new_supervisor := match associated_people_dns with | [] => "" | d :: _ => d
          match existing_supervisor with
          | none =>
            if new_supervisor ≠ "" then pure (true, some associated_people_dns)
            else pure (false, (none : Option (List String)))
          | some vs => do
            let v0 ← pyIndex vs 0
            if new_supervisor ≠ v0 then pure (true, some associated_people_dns)
            else pure (false, none)
        else if profile = "BPOrganization" then
          let new_sponsor := match associated_people_dns with | [] => "" | d :: _ => d
          match existing_sponsor with
          | none =>
            if new_sponsor ≠ "" then pure (true, some associated_people_dns)
            else pure (false, none)
          | some vs => do
            let v0 ← pyIndex vs 0
            if new_sponsor ≠ v0 then pure (true, some associated_people_dns)
            else pure (false, none)
        else if profile = "AdminDomain" then
          match existing_administrators with
          | none =>
            if associated_people_dns ≠ [] then pure (true, some associated_people_dns)
            else pure (false, none)
          | some vs =>
            if ¬ counterEq associated_people_dns vs then pure (true, some associated_people_dns)
            else pure (false, none)
        else
          pure (false, none)
      if mDesc || mPeople then
        if check_mode then
          pure { calls := [], rc := 0, changed := true, warnings := [] }
        else do
          let attrs ← build_container_attributes_list profile none descOpt apdOpt
          pure { calls := [.modifyContainer ex.itimDN attrs], rc := 0,
                 changed := true, warnings := [] }
      else
        pure { calls := [], rc := 0, changed := false, warnings := [] }
where
  /-- Create path of `container.apply` (source lines 207-219). -/
  mkCreate (profile name description : String) (associated_people_dns : List String)
      (parent_container_dn : String) (check_mode : Bool) : Except String ApplyResult :=
    if check_mode then
      pure { calls := [], rc := 0, changed := true, warnings := [] }
    else do
      let attrs ← build_container_attributes_list profile (some name) (some description)
        (some associated_people_dns)
      pure { calls := [.createContainer parent_container_dn (createProfileName profile) name attrs],
             rc := 0, changed := true, warnings := [] }

end Container

/-! ## `isimws.isim.service` (account-service apply) -/

namespace ServiceMod

/-- Value of an entry of the free-form `configuration` dict: a string or a
list of strings. -/
inductive ConfigVal where
  | str (s : String)
  | list (l : List String)
deriving DecidableEq, Repr

/-- Scalar-attribute comparison pattern of the `apply_account_service` diff
(e.g. source lines 273-283): an absent attribute is a change exactly when the
desired value is non-empty, a present attribute is compared against its first
value. -/
def strAttrDiff (desired attrKey : String) (existing : Entity) : Except String Bool :=
  match get_soap_attribute existing attrKey with
  | none => pure (desired != "")
  | some vs => do
    let v0 ← pyIndex vs 0
    pure (desired != v0)

/-- List-attribute comparison pattern of the `apply_account_service` diff
(source lines 384-393): multiset comparison, with an absent attribute a
change exactly when the desired list is non-empty. -/
def listAttrDiff (desired : List String) (attrKey : String) (existing : Entity) :
    Except String Bool :=
  match get_soap_attribute existing attrKey with
  | none => pure (desired != [])
  | some vs => pure (!(decide (counterEq desired vs)))

/-- Access-option comparison of the `apply_account_service` diff (source
lines 306-317). -/
def accessOptionDiff (define_access : Bool) (existing : Entity) : Except String Bool :=
  match get_soap_attribute existing "eraccessoption" with
  | none => pure define_access
  | some vs =>
    if ¬ define_access then do
      let v0 ← pyIndex vs 0
      pure (v0 != "")
    else do
      let v0 ← pyIndex vs 0
      pure (v0 != "2")

/-- Access-type comparison of the `apply_account_service` diff (source lines
330-360). -/
def accessTypeDiff (access_type : String) (existing : Entity) : Except String Bool :=
  match get_soap_attribute existing "eraccesscategory" with
  | none => pure (access_type != "")
  | some vs =>
    if pyLower access_type = "application" then do
      let v0 ← pyIndex vs 0
      pure (v0 != "Application")
    else if pyLower access_type = "sharedfolder" then do
      let v0 ← pyIndex vs 0
      pure (v0 != "SharedFolder")
    else if pyLower access_type = "emailgroup" then do
      let v0 ← pyIndex vs 0
      pure (v0 != "MailGroup")
    else if pyLower access_type = "role" then do
      let v0 ← pyIndex vs 0
      pure (v0 != "AccessRole")
    else
      .error (access_type ++ "is not a valid access type. Must be 'application', 'sharedfolder', 'emailgroup', or 'role'.")

/-- Per-key comparison of the free-form `configuration` dict against the
existing service (source lines 448-468): an absent remote attribute is a
change exactly when the desired value is a non-empty string or list, list
values are compared as multisets, scalar values against the first existing
value. -/
def configDiff (configuration : List (String × ConfigVal)) (existing : Entity) :
    Except String Bool :=
  configuration.foldlM (fun acc kv => do
    match get_soap_attribute existing kv.1 with
    | none =>
      match kv.2 with
      | .str s => pure (acc || (s != ""))
      | .list l => pure (acc || (l != ([] : List String)))
    | some vs =>
      match kv.2 with
      | .list l => pure (acc || !(decide (counterEq l vs)))
      | .str s => do
        let v0 ← pyIndex vs 0
        pure (acc || (s != v0))) false

/-- Embedding of `service.apply_account_service`.  The resolver outcomes are
parameters: `container_dn` is the result of `container_path_to_dn`,
`resolved_owner_dn` and `resolved_prerequisite_dn` the DNs the encoder
returns for a non-empty owner or prerequisite name, and `search_results` the
raw results of the service search.  The request payloads of
`_create_account_service` and `_modify_account_service` are not modelled
(no claim concerns them), so the clearing sweep over remote-only attribute
keys (source lines 470-478), which only extends that payload, is omitted;
every `modify_required` contribution is embedded. -/
def apply_account_service (container_path name service_type : String)
    (description owner_name service_prerequisite_name : Option String)
    (define_access : Option Bool)
    (access_name access_type access_description access_image_uri : Option String)
    (access_search_terms : Option (List String))
    (access_additional_info : Option String)
    (access_badges : Option (List Role.Badge))
    (configuration : List (String × Option ConfigVal))
    (container_dn resolved_owner_dn resolved_prerequisite_dn : String)
    (search_results : List Entity) (check_mode force : Bool) :
    Except String ApplyResult := do
  if ¬ (container_path.length > 0 ∧ name.length > 0 ∧ service_type.length > 0 ∧
      configuration.length > 0) then
    .error "Invalid service configuration. organization, container_path, name, and service_type must have non-empty string values. configuration must be a non-empty dictionary."
  else do
  if define_access = some true ∧ ¬ ((access_name.getD "").length > 0) then
    .error "Invalid service configuration. A valid access name must be supplied if define_access is True."
  else do
  let description := description.getD ""
  let owner_name := owner_name.getD ""
  let service_prerequisite_name := service_prerequisite_name.getD ""
  let define_access := define_access.getD false
  let access_name := access_name.getD ""
  let access_type := access_type.getD ""
  let access_description := access_description.getD ""
  let access_image_uri := access_image_uri.getD ""
  let access_search_terms := access_search_terms.getD []
  let access_additional_info := access_additional_info.getD ""
  let access_badges := access_badges.getD []
  let configuration : List (String × ConfigVal) :=
    configuration.map (fun kv => (pyLower kv.1, kv.2.getD (.str "")))
  let owner_dn := if owner_name ≠ "" then resolved_owner_dn else ""
  let service_prerequisite_dn :=
    if service_prerequisite_name ≠ "" then resolved_prerequisite_dn else ""
  let exact_matches := search_results.filter (fun r => r.name == name)
  if exact_matches.length = 0 ∨ force then
    if check_mode then
      pure { calls := [], rc := 0, changed := true, warnings := [] }
    else
      pure { calls := [.createAccountService container_dn name], rc := 0,
             changed := true, warnings := [] }
  else if h : exact_matches.length = 1 then do
    let existing_service ← pyIndex exact_matches 0
    let existing_service_type := existing_service.profileName
    if service_type ≠ existing_service_type then
      pure { calls := [], rc := 0, changed := false,
             warnings := ["The service '" ++ name ++ "' in container '" ++ container_dn ++
               "' is of service type '" ++ existing_service_type ++
               "'. You can't change the service type to '" ++ service_type ++
               "'. Create a new service with a different name instead."] }
    else do
      let m1 ← strAttrDiff description "description" existing_service
      let m2 ← strAttrDiff owner_dn "owner" existing_service
      let m3 ← strAttrDiff service_prerequisite_dn "erprerequisite" existing_service
      let m4 ← accessOptionDiff define_access existing_service
      let m5 ← strAttrDiff access_name "eraccessname" existing_service
      let m6 ← accessTypeDiff access_type existing_service
      let m7 ← strAttrDiff access_description "eraccessdescription" existing_service
      let m8 ← strAttrDiff access_image_uri "erimageuri" existing_service
      let m9 ← listAttrDiff access_search_terms "eraccesstag" existing_service
      let m10 ← strAttrDiff access_additional_info "eradditionalinformation" existing_service
      let new_badges := access_badges.map (fun b => b.text ++ "~" ++ b.colour)
      let m11 ← listAttrDiff new_badges "erbadge" existing_service
      let m12 ← configDiff configuration existing_service
      if m1 || m2 || m3 || m4 || m5 || m6 || m7 || m8 || m9 || m10 || m11 || m12 then
        if check_mode then
          pure { calls := [], rc := 0, changed := true, warnings := [] }
        else
          pure { calls := [.modifyAccountService existing_service.itimDN], rc := 0,
                 changed := true, warnings := [] }
      else
        pure { calls := [], rc := 0, changed := false, warnings := [] }
  else
    pure { calls := [], rc := 0, changed := false,
           warnings := ["More than one instance of the service '" ++ name ++
             "' was found in container '" ++ container_dn ++
             "'. No action was taken as it is unclear which service is being referred to."] }

end ServiceMod

/-! ## Shared proof helpers -/

/-- Extraction lemma for `Except` binds. -/
theorem exceptBindOk {α β : Type} {x : Except String α} {f : α → Except String β} {b : β}
    (h : x >>= f = .ok b) : ∃ a, x = .ok a ∧ f a = .ok b := by
  cases x with
  | error e => simp [Bind.bind, Except.bind] at h
  | ok a => exact ⟨a, rfl, by simpa [Bind.bind, Except.bind] using h⟩

/-- The profile-to-prefix map of `container.apply` and the prefix-to-profile
map of `get_unique_object` are mutually inverse on the five valid profiles. -/
theorem profileToPfx_pfxToProfile {profile pfx : String}
    (h : Container.profileToPfx profile = .ok pfx) :
    Container.pfxToProfile pfx = .ok profile := by
  unfold Container.profileToPfx at h
  split_ifs at h with h1 h2 h3 h4 h5 <;>
    simp only [Except.ok.injEq] at h <;> subst h <;>
    first
    | (subst h1; rfl)
    | (subst h2; rfl)
    | (subst h3; rfl)
    | (subst h4; rfl)
    | (subst h5; rfl)

/-! ## Fixtures used by counterexamples and witnesses -/

/-- Sample role entity. -/
def roleEntityA : Entity :=
  { itimDN := "erglobalid=1,ou=roles,dc=com", name := "RoleA", profileName := "",
    description := "", attributes := [] }

/-- Second sample role entity with the same name. -/
def roleEntityB : Entity :=
  { itimDN := "erglobalid=2,ou=roles,dc=com", name := "RoleA", profileName := "",
    description := "", attributes := [] }

/-- Sample role configuration. -/
def roleCfgA : Role.Config :=
  { container_dn := "ou=org,dc=com", name := "RoleA", role_classification := "application",
    description := none, role_owners := none, user_owners := none, enable_access := none,
    common_access := none, access_type := none, access_image_uri := none,
    access_search_terms := none, access_additional_info := none, access_badges := none,
    assignment_attributes := none }

/-- Sample container entity that is a direct child of parent `P`. -/
def ouEntityA : Entity :=
  { itimDN := "ou=ou1,o=A", name := "ou1", profileName := "OrganizationalUnit",
    description := "", attributes := [{ name := "erparent", values := ["P"] }] }

/-- Second sample container entity with the same name and parent. -/
def ouEntityB : Entity :=
  { itimDN := "ou=ou1b,o=A", name := "ou1", profileName := "OrganizationalUnit",
    description := "", attributes := [{ name := "erparent", values := ["P"] }] }

/-- Sample service entity. -/
def svcEntityA : Entity :=
  { itimDN := "erglobalid=3,ou=services,dc=com", name := "svc", profileName := "ADprofile",
    description := "", attributes := [] }

/-- Second sample service entity with the same name. -/
def svcEntityB : Entity :=
  { itimDN := "erglobalid=4,ou=services,dc=com", name := "svc", profileName := "ADprofile",
    description := "", attributes := [] }

/-! ## Claim C2: ambiguity behaviour of apply -/

/-- C2 counterexample: `role.apply` does not downgrade ambiguity to a
warning — with two search results it raises a `ValueError`, refuting the
claim that every entity kind's apply reports `changed=false` with warnings
and no error. -/
theorem claim_C2_ambiguity_counterexample :
    Role.apply roleCfgA [roleEntityA, roleEntityB] =
      .error "More than one instance of the role 'RoleA' was found in container 'ou=org,dc=com'. Cannot determine what action to take." := by
  rfl

/-- C2 amended: on an ambiguous match the account-service apply reports
`changed=false` with a non-empty warnings list and performs no action, while
the role and container applies raise a hard error (and likewise perform no
create or modify). -/
theorem claim_C2_ambiguity_amended :
    (∀ (cfg : Role.Config) (a b : Entity) (rest : List Entity),
      cfg.container_dn.length > 0 → cfg.name.length > 0 →
      cfg.role_classification.length > 0 →
      Role.apply cfg (a :: b :: rest) =
        .error ("More than one instance of the role '" ++ cfg.name ++
          "' was found in container '" ++ cfg.container_dn ++
          "'. Cannot determine what action to take.")) ∧
    (∀ (path profile name : String) (descr : Option String) (apd : List String)
        (parentDn : String) (results : List Entity) (cm force : Bool) (pfx : String)
        (filtered : List Entity),
      path.length > 0 → profile.length > 0 → name.length > 0 →
      Container.profileToPfx profile = .ok pfx →
      pySplit2S ':' ':' (pfx ++ "::" ++ name) = [pfx, name] →
      guoFilterLoop (fun e => e.name != name) erparentOf parentDn results
        results.length = .ok filtered →
      filtered.length > 1 →
      Container.apply path profile name descr apd parentDn results cm force =
        .error ("Unable to uniquely identify object. More than one container was found with the name " ++
          name ++ " in " ++ path ++ ".")) ∧
    (∀ (container_path name service_type : String)
        (descr owner_name prereq_name : Option String)
        (access_name access_type access_description access_image_uri : Option String)
        (access_search_terms : Option (List String))
        (access_additional_info : Option String)
        (access_badges : Option (List Role.Badge))
        (configuration : List (String × Option ServiceMod.ConfigVal))
        (container_dn odn pdn : String) (results : List Entity) (cm : Bool),
      container_path.length > 0 → name.length > 0 → service_type.length > 0 →
      configuration.length > 0 →
      2 ≤ (results.filter (fun r => r.name == name)).length →
      ServiceMod.apply_account_service container_path name service_type descr owner_name
        prereq_name none access_name access_type access_description access_image_uri
        access_search_terms access_additional_info access_badges configuration
        container_dn odn pdn results cm false =
        .ok { calls := [], rc := 0, changed := false,
              warnings := ["More than one instance of the service '" ++ name ++
                "' was found in container '" ++ container_dn ++
                "'. No action was taken as it is unclear which service is being referred to."] }) := by
  refine ⟨?_, ?_, ?_⟩
  · intro cfg a b rest h1 h2 h3
    unfold Role.apply
    rw [if_neg (by simp [h1, h2, h3])]
  · intro path profile name descr apd parentDn results cm force pfx filtered
      h1 h2 h3 hpfx hsplit hfilt hlen
    unfold Container.apply
    rw [if_neg (by simp [h1, h2, h3]), hpfx]
    simp only [Bind.bind, Except.bind, hsplit]
    rw [if_neg (by simp)]
    simp only [pyIndex, List.getElem?_cons_zero, List.getElem?_cons_succ,
      profileToPfx_pfxToProfile hpfx, hfilt]
    simp [hlen]
  · intro container_path name service_type descr owner_name prereq_name access_name
      access_type access_description access_image_uri access_search_terms
      access_additional_info access_badges configuration container_dn odn pdn results
      cm h1 h2 h3 h4 hlen
    unfold ServiceMod.apply_account_service
    rw [if_neg (by simp [h1, h2, h3, h4])]
    rw [if_neg (by simp)]
    rw [if_neg (by simp only [Bool.false_eq_true, or_false]; omega)]
    rw [dif_neg (by omega)]
    rfl

/-- Closed instances of the amended C2 statement for all three embedded
kinds. -/
theorem claim_C2_ambiguity_amended_witness :
    (Role.apply roleCfgA [roleEntityA, roleEntityB] =
      .error "More than one instance of the role 'RoleA' was found in container 'ou=org,dc=com'. Cannot determine what action to take.") ∧
    (Container.apply "//Org" "OrganizationalUnit" "ou1" none [] "P" [ouEntityA, ouEntityB]
        false false =
      .error "Unable to uniquely identify object. More than one container was found with the name ou1 in //Org.") ∧
    (ServiceMod.apply_account_service "//Org" "svc" "ADprofile" none none none none none
        none none none none none none [("k", some (.str "v"))] "o=A" "" ""
        [svcEntityA, svcEntityB] false false =
      .ok { calls := [], rc := 0, changed := false,
            warnings := ["More than one instance of the service 'svc' was found in container 'o=A'. No action was taken as it is unclear which service is being referred to."] }) :=
  ⟨claim_C2_ambiguity_amended.1 roleCfgA roleEntityA roleEntityB [] (by decide) (by decide)
      (by decide),
   claim_C2_ambiguity_amended.2.1 "//Org" "OrganizationalUnit" "ou1" none [] "P"
      [ouEntityA, ouEntityB] false false "ou" [ouEntityA, ouEntityB] (by decide) (by decide)
      (by decide) (by decide) (by decide) (by decide) (by decide),
   claim_C2_ambiguity_amended.2.2 "//Org" "svc" "ADprofile" none none none none none none
      none none none none [("k", some (.str "v"))] "o=A" "" "" [svcEntityA, svcEntityB]
      false (by decide) (by decide) (by decide) (by decide) (by decide)⟩

/-! ## Claim C4: the get_unique_object filter -/

/-- Stray entity matching neither the requested name nor the parent. -/
def c4Stray : Entity :=
  { itimDN := "erglobalid=B,ou=roles,o=A", name := "Y", profileName := "",
    description := "", attributes := [{ name := "erparent", values := ["Q"] }] }

/-- Target entity matching both the requested name and the parent. -/
def c4Target : Entity :=
  { itimDN := "erglobalid=G,ou=roles,o=A", name := "X", profileName := "",
    description := "", attributes := [{ name := "erparent", values := ["P"] }] }

/-- C4: evaluating `get_unique_object` at a failing input.  The stray entry
fails both the name check and the parent check, so the backwards loop deletes
it and then deletes again at the same index, removing the surviving target
entry: the function returns `None` although exactly one entry matches the
exact-name and exact-parent filter the claim describes. -/
theorem claim_C4_filter_double_delete :
    get_unique_object "role" "X" "//Org" "P" [c4Stray, c4Target] = .ok none ∧
    ([c4Stray, c4Target].filter
      (fun e => e.name == "X" && (erparentOf e == Except.ok "P"))) = [c4Target] := by
  exact ⟨by rfl, by rfl⟩

/-! ## Claim C3: sentinel versus explicit-empty -/

/-- Existing container whose `description` attribute is `["old"]`; a direct
child of parent `P`. -/
def c3Existing : Entity :=
  { itimDN := "ou=x,o=A", name := "x", profileName := "OrganizationalUnit",
    description := "",
    attributes := [{ name := "description", values := ["old"] },
                   { name := "erparent", values := ["P"] }] }

/-- The name segment never contributes a `description` attribute. -/
theorem filterDesc_nameSegment (profile : String) (n : Option String)
    (ns : List WSAttribute) (h : Container.nameSegment profile n = .ok ns) :
    ns.filter (fun a => a.name == "description") = [] := by
  cases n with
  | none =>
    simp only [Container.nameSegment, pure, Except.pure, Except.ok.injEq] at h
    subst h; rfl
  | some v =>
    simp only [Container.nameSegment] at h
    split_ifs at h <;>
      first
      | (simp only [pure, Except.pure, Except.ok.injEq] at h; subst h; rfl)
      | simp at h

/-- The people segment never contributes a `description` attribute. -/
theorem filterDesc_peopleSegment (profile : String) (apd : Option (List String))
    (ps : List WSAttribute) (h : Container.peopleSegment profile apd = .ok ps) :
    ps.filter (fun a => a.name == "description") = [] := by
  cases apd with
  | none =>
    simp only [Container.peopleSegment, pure, Except.pure, Except.ok.injEq] at h
    subst h; rfl
  | some dns =>
    simp only [Container.peopleSegment] at h
    split_ifs at h <;>
      first
      | (simp only [pure, Except.pure, Except.ok.injEq] at h; subst h; rfl)
      | (obtain ⟨d0, hd0, h⟩ := exceptBindOk h
         simp only [pure, Except.pure, Except.ok.injEq] at h; subst h; rfl)
      | simp at h

/-- C3: against an existing container whose `description` attribute is
`["old"]`, a desired empty-string description is classified as a real change
and the issued modify call carries the `description` attribute with an empty
value list, while the no-change sentinel (`None` reaching the attribute
builder) puts no `description` attribute into the modify call at all. -/
theorem claim_C3_sentinel_vs_empty :
    (Container.apply "//Org" "OrganizationalUnit" "x" (some "") [] "P" [c3Existing]
        false false =
      .ok { calls := [.modifyContainer "ou=x,o=A" [build_attribute "description" []]],
            rc := 0, changed := true, warnings := [] }) ∧
    (∀ (profile : String) (n : Option String) (apd : Option (List String))
        (attrs : List WSAttribute),
      Container.build_container_attributes_list profile n none apd = .ok attrs →
      attrs.filter (fun a => a.name == "description") = []) := by
  constructor
  · rfl
  · intro profile n apd attrs h
    unfold Container.build_container_attributes_list at h
    obtain ⟨ns, hns, h2⟩ := exceptBindOk h
    clear h
    obtain ⟨ds, hds, h3⟩ := exceptBindOk h2
    clear h2
    obtain ⟨ps, hps, h4⟩ := exceptBindOk h3
    clear h3
    simp only [pure, Except.pure, Except.ok.injEq] at h4
    have hdsE : ds = [] := by
      simp only [Container.containerDescSegment, pure, Except.pure, Except.ok.injEq] at hds
      exact hds.symm
    subst hdsE
    rw [← h4]
    simp [List.filter_append, filterDesc_nameSegment profile n ns hns,
      filterDesc_peopleSegment profile apd ps hps]

/-- Closed instance of the sentinel half of C3: a modify attribute list built
with the description sentinel for an `OrganizationalUnit` contains no
`description` attribute. -/
theorem claim_C3_sentinel_vs_empty_witness :
    ([build_attribute "erSupervisor" [.str "p1"]].filter
      (fun a => a.name == "description")) = [] :=
  claim_C3_sentinel_vs_empty.2 "OrganizationalUnit" none (some ["p1"])
    [build_attribute "erSupervisor" [.str "p1"]] (by rfl)

/-! ## Claim C1: apply is a no-op when every field already matches -/

/-- A list whose head is `v` yields `some v` at index 0. -/
theorem head?_getElem0 {α : Type} {l : List α} {v : α} (h : l.head? = some v) :
    l[0]? = some v := by
  cases l with
  | nil => simp at h
  | cons a t => simpa using h

/-- Indexing a list at 0 yields its head. -/
theorem pyIndex_zero {α : Type} {l : List α} {v : α} (h : l.head? = some v) :
    pyIndex l 0 = .ok v := by
  simp [pyIndex, head?_getElem0 h]

/-- The classification block reports no change when the existing attribute
carries the encoded form of the desired classification. -/
theorem classificationDiff_noChange (c : String) (ex : Entity) (vs : List String)
    (hvs : Role.get_role_attribute ex "erroleclassification" = some vs)
    (hcase :
      (pyLower c = "application" ∧ vs.head? = some "role.classification.application") ∨
      (pyLower c = "business" ∧ vs.head? = some "role.classification.business")) :
    Role.classificationDiff c ex = .ok (false, none) := by
  simp only [Role.classificationDiff, hvs]
  rcases hcase with ⟨hc, hv⟩ | ⟨hc, hv⟩
  · rw [if_pos hc, pyIndex_zero hv]
    simp [Bind.bind, Except.bind, pure, Except.pure]
  · rw [if_neg (by simp [hc]), if_pos hc, pyIndex_zero hv]
    simp [Bind.bind, Except.bind, pure, Except.pure]

/-- The description block reports no change when both the top-level field and
the attribute match the desired description. -/
theorem descriptionDiff_noChange (D : String) (ex : Entity) (vs : List String)
    (hvs : Role.get_role_attribute ex "description" = some vs)
    (hd : ex.description = D) (hv : vs.head? = some D) :
    Role.descriptionDiff D ex = .ok (false, none) := by
  simp only [Role.descriptionDiff, hvs]
  rw [if_neg (by simp [hd]), pyIndex_zero hv]
  simp [Bind.bind, Except.bind, pure, Except.pure]

/-- The owner block reports no change when the existing merged owner list is
a permutation of the desired merged list. -/
theorem ownersDiff_noChange (ro uo : List String) (ex : Entity) (vs : List String)
    (hvs : Role.get_role_attribute ex "owner" = some vs)
    (hc : counterEq (ro ++ uo) vs) :
    Role.ownersDiff ro uo ex = (false, none, none) := by
  simp [Role.ownersDiff, hvs, hc]

/-- The access-option block reports no change when the existing tri-state
digit matches the desired enable/common combination. -/
theorem accessOptionDiff_noChange (ea ca : Bool) (ex : Entity) (vs : List String)
    (hvs : Role.get_role_attribute ex "eraccessoption" = some vs)
    (hcase :
      (ea = false ∧ vs.head? = some "1") ∨
      (ea = true ∧ ca = false ∧ vs.head? = some "2") ∨
      (ea = true ∧ ca = true ∧ vs.head? = some "3")) :
    Role.accessOptionDiff ea ca ex = .ok (false, none, none) := by
  simp only [Role.accessOptionDiff, hvs]
  rcases hcase with ⟨he, hv⟩ | ⟨he, hca, hv⟩ | ⟨he, hca, hv⟩
  · subst he
    rw [if_pos (by simp), pyIndex_zero hv]
    simp [Bind.bind, Except.bind, pure, Except.pure]
  · subst he; subst hca
    rw [if_neg (by simp), if_pos (by simp), pyIndex_zero hv]
    simp [Bind.bind, Except.bind, pure, Except.pure]
  · subst he; subst hca
    rw [if_neg (by simp), if_neg (by simp), pyIndex_zero hv]
    simp [Bind.bind, Except.bind, pure, Except.pure]

/-- The access-type block reports no change when the existing attribute
carries the encoded form of the desired access type. -/
theorem accessTypeDiff_noChange (t : String) (ex : Entity) (vs : List String)
    (hvs : Role.get_role_attribute ex "erobjectprofilename" = some vs)
    (hcase :
      (pyLower t = "application" ∧ vs.head? = some "Application") ∨
      (pyLower t = "sharedfolder" ∧ vs.head? = some "SharedFolder") ∨
      (pyLower t = "emailgroup" ∧ vs.head? = some "MailGroup") ∨
      (pyLower t = "role" ∧ vs.head? = some "AccessRole")) :
    Role.accessTypeDiff t ex = .ok (false, none) := by
  simp only [Role.accessTypeDiff, hvs]
  rcases hcase with ⟨hc, hv⟩ | ⟨hc, hv⟩ | ⟨hc, hv⟩ | ⟨hc, hv⟩ <;>
    simp [hc, pyIndex_zero hv, Bind.bind, Except.bind, pure, Except.pure]

/-- The image-URI block reports no change when the attribute is absent and
the desired URI empty, or present with a matching first value. -/
theorem imageUriDiff_noChange (u : String) (ex : Entity)
    (hcase :
      (Role.get_role_attribute ex "erimageuri" = none ∧ u = "") ∨
      (∃ vs, Role.get_role_attribute ex "erimageuri" = some vs ∧ vs.head? = some u)) :
    Role.imageUriDiff u ex = .ok (false, none) := by
  rcases hcase with ⟨hvs, hu⟩ | ⟨vs, hvs, hv⟩
  · simp only [Role.imageUriDiff, hvs]
    simp [hu, pure, Except.pure]
  · simp only [Role.imageUriDiff, hvs]
    rw [pyIndex_zero hv]
    simp [Bind.bind, Except.bind, pure, Except.pure]

/-- The search-terms block reports no change for a matching multiset. -/
theorem searchTermsDiff_noChange (ts : List String) (ex : Entity) (vs : List String)
    (hvs : Role.get_role_attribute ex "eraccesstag" = some vs)
    (hc : counterEq ts vs) :
    Role.searchTermsDiff ts ex = (false, none) := by
  simp [Role.searchTermsDiff, hvs, hc]

/-- The additional-info block reports no change for a matching first value. -/
theorem additionalInfoDiff_noChange (i : String) (ex : Entity) (vs : List String)
    (hvs : Role.get_role_attribute ex "eradditionalinformation" = some vs)
    (hv : vs.head? = some i) :
    Role.additionalInfoDiff i ex = .ok (false, none) := by
  simp only [Role.additionalInfoDiff, hvs]
  rw [pyIndex_zero hv]
  simp [Bind.bind, Except.bind, pure, Except.pure]

/-- The badge block reports no change when the encoded badge multiset
matches. -/
theorem badgesDiff_noChange (bs : List Role.Badge) (ex : Entity) (vs : List String)
    (hvs : Role.get_role_attribute ex "erbadge" = some vs)
    (hc : counterEq (bs.map (fun b => b.text ++ "~" ++ b.colour)) vs) :
    Role.badgesDiff bs ex = (false, none) := by
  simp [Role.badgesDiff, hvs, hc]

/-- The assignment-attribute block reports no change for a matching
multiset. -/
theorem assignmentDiff_noChange (as_ : List String) (ex : Entity) (vs : List String)
    (hvs : Role.get_role_attribute ex "erroleassignmentkey" = some vs)
    (hc : counterEq as_ vs) :
    Role.assignmentDiff as_ ex = (false, none) := by
  simp [Role.assignmentDiff, hvs, hc]

/-- Composition: when every role field compares equal under its
kind-specific rule, `role.apply` returns `changed=false` with no create and
no modify call. -/
theorem role_apply_noChange (cfg : Role.Config) (ex : Entity)
    (hv1 : cfg.container_dn.length > 0) (hv2 : cfg.name.length > 0)
    (hv3 : cfg.role_classification.length > 0)
    (cvs : List String)
    (hc1 : Role.get_role_attribute ex "erroleclassification" = some cvs)
    (hc2 :
      (pyLower cfg.role_classification = "application" ∧
        cvs.head? = some "role.classification.application") ∨
      (pyLower cfg.role_classification = "business" ∧
        cvs.head? = some "role.classification.business"))
    (dvs : List String)
    (hd1 : Role.get_role_attribute ex "description" = some dvs)
    (hd2 : ex.description = cfg.description.getD "")
    (hd3 : dvs.head? = some (cfg.description.getD ""))
    (ovs : List String)
    (ho1 : Role.get_role_attribute ex "owner" = some ovs)
    (ho2 : counterEq ((cfg.role_owners.getD []) ++ (cfg.user_owners.getD [])) ovs)
    (avs : List String)
    (ha1 : Role.get_role_attribute ex "eraccessoption" = some avs)
    (ha2 :
      (cfg.enable_access.getD false = false ∧ avs.head? = some "1") ∨
      (cfg.enable_access.getD false = true ∧ cfg.common_access.getD false = false ∧
        avs.head? = some "2") ∨
      (cfg.enable_access.getD false = true ∧ cfg.common_access.getD false = true ∧
        avs.head? = some "3"))
    (tvs : List String)
    (ht1 : Role.get_role_attribute ex "erobjectprofilename" = some tvs)
    (ht2 :
      (pyLower (cfg.access_type.getD "") = "application" ∧ tvs.head? = some "Application") ∨
      (pyLower (cfg.access_type.getD "") = "sharedfolder" ∧ tvs.head? = some "SharedFolder") ∨
      (pyLower (cfg.access_type.getD "") = "emailgroup" ∧ tvs.head? = some "MailGroup") ∨
      (pyLower (cfg.access_type.getD "") = "role" ∧ tvs.head? = some "AccessRole"))
    (hu :
      (Role.get_role_attribute ex "erimageuri" = none ∧ cfg.access_image_uri.getD "" = "") ∨
      (∃ uvs, Role.get_role_attribute ex "erimageuri" = some uvs ∧
        uvs.head? = some (cfg.access_image_uri.getD "")))
    (evs : List String)
    (he1 : Role.get_role_attribute ex "eraccesstag" = some evs)
    (he2 : counterEq (cfg.access_search_terms.getD []) evs)
    (ivs : List String)
    (hi1 : Role.get_role_attribute ex "eradditionalinformation" = some ivs)
    (hi2 : ivs.head? = some (cfg.access_additional_info.getD ""))
    (bvs : List String)
    (hb1 : Role.get_role_attribute ex "erbadge" = some bvs)
    (hb2 : counterEq ((cfg.access_badges.getD []).map (fun b => b.text ++ "~" ++ b.colour)) bvs)
    (svs : List String)
    (hs1 : Role.get_role_attribute ex "erroleassignmentkey" = some svs)
    (hs2 : counterEq (cfg.assignment_attributes.getD []) svs) :
    Role.apply cfg [ex] = .ok { calls := [], rc := 0, changed := false, warnings := [] } := by
  have e1 := classificationDiff_noChange cfg.role_classification ex cvs hc1 hc2
  have e2 := descriptionDiff_noChange (cfg.description.getD "") ex dvs hd1 hd2 hd3
  have e3 := ownersDiff_noChange (cfg.role_owners.getD []) (cfg.user_owners.getD []) ex ovs ho1 ho2
  have e4 := accessOptionDiff_noChange (cfg.enable_access.getD false)
    (cfg.common_access.getD false) ex avs ha1 ha2
  have e5 := accessTypeDiff_noChange (cfg.access_type.getD "") ex tvs ht1 ht2
  have e6 := imageUriDiff_noChange (cfg.access_image_uri.getD "") ex hu
  have e7 := searchTermsDiff_noChange (cfg.access_search_terms.getD []) ex evs he1 he2
  have e8 := additionalInfoDiff_noChange (cfg.access_additional_info.getD "") ex ivs hi1 hi2
  have e9 := badgesDiff_noChange (cfg.access_badges.getD []) ex bvs hb1 hb2
  have e10 := assignmentDiff_noChange (cfg.assignment_attributes.getD []) ex svs hs1 hs2
  unfold Role.apply
  rw [if_neg (by simp [hv1, hv2, hv3])]
  simp only [e1, e2, e3, e4, e5, e6, e7, e8, e9, e10, Bind.bind, Except.bind]
  rfl

/-- Membership-style no-change condition for the container description
block: absent existing description matches exactly the empty desired
description, a present one is compared against its first value. -/
def descEqProp (D : String) (ex : Entity) : Prop :=
  match get_soap_attribute ex "description" with
  | none => D = ""
  | some vs => vs.head? = some D

/-- No-change condition for the supervisor and sponsor blocks of the
container diff. -/
def personLinkEqProp (newv : String) (key : String) (ex : Entity) : Prop :=
  match get_soap_attribute ex key with
  | none => newv = ""
  | some vs => vs.head? = some newv

/-- No-change condition for the administrator block of the container diff. -/
def adminsEqProp (apd : List String) (ex : Entity) : Prop :=
  match get_soap_attribute ex "erAdministrator" with
  | none => apd = []
  | some vs => counterEq apd vs

/-- First element of the resolved people list, or the empty string (the
`new_supervisor` / `new_sponsor` computation of `container.apply`). -/
def firstOrEmpty (l : List String) : String :=
  match l with
  | [] => ""
  | d :: _ => d

/-- Composition: when the container's description and people fields compare
equal under the profile-specific rules, `container.apply` returns
`changed=false` with no create and no modify call. -/
theorem container_apply_noChange (path profile name : String) (descr : Option String)
    (apd : List String) (parentDn : String) (results : List Entity) (cm : Bool)
    (pfx : String) (ex : Entity)
    (h1 : path.length > 0) (h2 : profile.length > 0) (h3 : name.length > 0)
    (hpfx : Container.profileToPfx profile = .ok pfx)
    (hsplit : pySplit2S ':' ':' (pfx ++ "::" ++ name) = [pfx, name])
    (hfilt : guoFilterLoop (fun e => e.name != name) erparentOf parentDn results
      results.length = .ok [ex])
    (hdesc : profile = "Organization" ∨ profile = "OrganizationalUnit" ∨
      profile = "Location" ∨ profile = "AdminDomain" → descEqProp (descr.getD "") ex)
    (hsup : profile = "OrganizationalUnit" ∨ profile = "Location" →
      personLinkEqProp (firstOrEmpty apd) "erSupervisor" ex)
    (hspo : profile = "BPOrganization" →
      personLinkEqProp (firstOrEmpty apd) "erSponsor" ex)
    (hadm : profile = "AdminDomain" → adminsEqProp apd ex) :
    Container.apply path profile name descr apd parentDn results cm false =
      .ok { calls := [], rc := 0, changed := false, warnings := [] } := by
  unfold Container.apply
  rw [if_neg (by simp [h1, h2, h3]), hpfx]
  simp only [Bind.bind, Except.bind, hsplit]
  rw [if_neg (by simp)]
  simp only [pyIndex, List.getElem?_cons_zero, List.getElem?_cons_succ,
    profileToPfx_pfxToProfile hpfx, hfilt]
  rw [if_neg (by simp : ¬([ex].length > 1))]
  simp only [Bind.bind, Except.bind, pure, Except.pure, Bool.false_eq_true, if_false]
  have hprofiles : profile = "Organization" ∨ profile = "OrganizationalUnit" ∨
      profile = "BPOrganization" ∨ profile = "Location" ∨ profile = "AdminDomain" := by
    unfold Container.profileToPfx at hpfx
    split_ifs at hpfx with a1 a2 a3 a4 a5 <;> simp_all
  have hDesc4 : profile = "Organization" ∨ profile = "OrganizationalUnit" ∨
      profile = "Location" ∨ profile = "AdminDomain" →
      (match get_soap_attribute ex "description" with
        | none => descr.getD "" = ""
        | some vs => vs.head? = some (descr.getD "")) := hdesc
  rcases hprofiles with hp | hp | hp | hp | hp <;> subst hp
  case _ =>
    -- Organization
    have hd := hDesc4 (by simp)
    cases hgd : get_soap_attribute ex "description" with
    | none =>
      rw [hgd] at hd
      replace hd : descr.getD "" = "" := hd
      simp [hgd, hd, Bind.bind, Except.bind, pure, Except.pure]
    | some vs =>
      rw [hgd] at hd
      replace hd : vs.head? = some (descr.getD "") := hd
      simp only [hgd]
      simp only [head?_getElem0 hd]
      simp [Bind.bind, Except.bind, pure, Except.pure]
  case _ =>
    -- OrganizationalUnit
    have hd := hDesc4 (by simp)
    have hs := hsup (by simp)
    unfold personLinkEqProp at hs
    cases hgd : get_soap_attribute ex "description" with
    | none =>
      rw [hgd] at hd
      replace hd : descr.getD "" = "" := hd
      cases hgs : get_soap_attribute ex "erSupervisor" with
      | none =>
        rw [hgs] at hs
        replace hs : firstOrEmpty apd = "" := hs
        unfold firstOrEmpty at hs
        simp [hgd, hgs, hd, hs, firstOrEmpty, Bind.bind, Except.bind, pure, Except.pure]
      | some svs =>
        rw [hgs] at hs
        replace hs : svs.head? = some (firstOrEmpty apd) := hs
        simp only [hgd, hgs]
        simp only [head?_getElem0 hs]
        simp [hd, firstOrEmpty, Bind.bind, Except.bind, pure, Except.pure]
    | some vs =>
      rw [hgd] at hd
      replace hd : vs.head? = some (descr.getD "") := hd
      cases hgs : get_soap_attribute ex "erSupervisor" with
      | none =>
        rw [hgs] at hs
        replace hs : firstOrEmpty apd = "" := hs
        unfold firstOrEmpty at hs
        simp only [hgd, hgs]
        simp only [head?_getElem0 hd]
        simp [hs, firstOrEmpty, Bind.bind, Except.bind, pure, Except.pure]
      | some svs =>
        rw [hgs] at hs
        replace hs : svs.head? = some (firstOrEmpty apd) := hs
        simp only [hgd, hgs]
        simp only [head?_getElem0 hd, head?_getElem0 hs]
        simp [firstOrEmpty, Bind.bind, Except.bind, pure, Except.pure]
  case _ =>
    -- BPOrganization
    have hs := hspo rfl
    unfold personLinkEqProp at hs
    cases hgs : get_soap_attribute ex "erSponsor" with
    | none =>
      rw [hgs] at hs
      replace hs : firstOrEmpty apd = "" := hs
      unfold firstOrEmpty at hs
      simp [hgs, hs, firstOrEmpty, Bind.bind, Except.bind, pure, Except.pure]
    | some svs =>
      rw [hgs] at hs
      replace hs : svs.head? = some (firstOrEmpty apd) := hs
      simp only [hgs]
      simp only [head?_getElem0 hs]
      simp [firstOrEmpty, Bind.bind, Except.bind, pure, Except.pure]
  case _ =>
    -- Location
    have hd := hDesc4 (by simp)
    have hs := hsup (by simp)
    unfold personLinkEqProp at hs
    cases hgd : get_soap_attribute ex "description" with
    | none =>
      rw [hgd] at hd
      replace hd : descr.getD "" = "" := hd
      cases hgs : get_soap_attribute ex "erSupervisor" with
      | none =>
        rw [hgs] at hs
        replace hs : firstOrEmpty apd = "" := hs
        unfold firstOrEmpty at hs
        simp [hgd, hgs, hd, hs, firstOrEmpty, Bind.bind, Except.bind, pure, Except.pure]
      | some svs =>
        rw [hgs] at hs
        replace hs : svs.head? = some (firstOrEmpty apd) := hs
        simp only [hgd, hgs]
        simp only [head?_getElem0 hs]
        simp [hd, firstOrEmpty, Bind.bind, Except.bind, pure, Except.pure]
    | some vs =>
      rw [hgd] at hd
      replace hd : vs.head? = some (descr.getD "") := hd
      cases hgs : get_soap_attribute ex "erSupervisor" with
      | none =>
        rw [hgs] at hs
        replace hs : firstOrEmpty apd = "" := hs
        unfold firstOrEmpty at hs
        simp only [hgd, hgs]
        simp only [head?_getElem0 hd]
        simp [hs, firstOrEmpty, Bind.bind, Except.bind, pure, Except.pure]
      | some svs =>
        rw [hgs] at hs
        replace hs : svs.head? = some (firstOrEmpty apd) := hs
        simp only [hgd, hgs]
        simp only [head?_getElem0 hd, head?_getElem0 hs]
        simp [firstOrEmpty, Bind.bind, Except.bind, pure, Except.pure]
  case _ =>
    -- AdminDomain
    have hd := hDesc4 (by simp)
    have ha := hadm rfl
    unfold adminsEqProp at ha
    cases hgd : get_soap_attribute ex "description" with
    | none =>
      rw [hgd] at hd
      replace hd : descr.getD "" = "" := hd
      cases hga : get_soap_attribute ex "erAdministrator" with
      | none =>
        rw [hga] at ha
        replace ha : apd = [] := ha
        simp [hgd, hga, hd, ha, Bind.bind, Except.bind, pure, Except.pure]
      | some avs =>
        rw [hga] at ha
        replace ha : counterEq apd avs := ha
        simp [hgd, hga, hd, ha, Bind.bind, Except.bind, pure, Except.pure]
    | some vs =>
      rw [hgd] at hd
      replace hd : vs.head? = some (descr.getD "") := hd
      cases hga : get_soap_attribute ex "erAdministrator" with
      | none =>
        rw [hga] at ha
        replace ha : apd = [] := ha
        simp only [hgd, hga]
        simp only [head?_getElem0 hd]
        simp [ha, Bind.bind, Except.bind, pure, Except.pure]
      | some avs =>
        rw [hga] at ha
        replace ha : counterEq apd avs := ha
        simp only [hgd, hga]
        simp only [head?_getElem0 hd]
        simp [ha, Bind.bind, Except.bind, pure, Except.pure]

/-- C1: for the role and container kinds, when every comparable field of the
desired configuration equals the existing object's value under the
kind-specific equality rule, apply returns `changed=false` and issues no
create and no modify call (and hence a second apply against an unchanged
remote state is a no-op). -/
theorem claim_C1_apply_idempotent :
    (∀ (cfg : Role.Config) (ex : Entity)
      (hv1 : cfg.container_dn.length > 0) (hv2 : cfg.name.length > 0)
      (hv3 : cfg.role_classification.length > 0)
      (cvs : List String)
      (hc1 : Role.get_role_attribute ex "erroleclassification" = some cvs)
      (hc2 :
        (pyLower cfg.role_classification = "application" ∧
          cvs.head? = some "role.classification.application") ∨
        (pyLower cfg.role_classification = "business" ∧
          cvs.head? = some "role.classification.business"))
      (dvs : List String)
      (hd1 : Role.get_role_attribute ex "description" = some dvs)
      (hd2 : ex.description = cfg.description.getD "")
      (hd3 : dvs.head? = some (cfg.description.getD ""))
      (ovs : List String)
      (ho1 : Role.get_role_attribute ex "owner" = some ovs)
      (ho2 : counterEq ((cfg.role_owners.getD []) ++ (cfg.user_owners.getD [])) ovs)
      (avs : List String)
      (ha1 : Role.get_role_attribute ex "eraccessoption" = some avs)
      (ha2 :
        (cfg.enable_access.getD false = false ∧ avs.head? = some "1") ∨
        (cfg.enable_access.getD false = true ∧ cfg.common_access.getD false = false ∧
          avs.head? = some "2") ∨
        (cfg.enable_access.getD false = true ∧ cfg.common_access.getD false = true ∧
          avs.head? = some "3"))
      (tvs : List String)
      (ht1 : Role.get_role_attribute ex "erobjectprofilename" = some tvs)
      (ht2 :
        (pyLower (cfg.access_type.getD "") = "application" ∧ tvs.head? = some "Application") ∨
        (pyLower (cfg.access_type.getD "") = "sharedfolder" ∧ tvs.head? = some "SharedFolder") ∨
        (pyLower (cfg.access_type.getD "") = "emailgroup" ∧ tvs.head? = some "MailGroup") ∨
        (pyLower (cfg.access_type.getD "") = "role" ∧ tvs.head? = some "AccessRole"))
      (hu :
        (Role.get_role_attribute ex "erimageuri" = none ∧ cfg.access_image_uri.getD "" = "") ∨
        (∃ uvs, Role.get_role_attribute ex "erimageuri" = some uvs ∧
          uvs.head? = some (cfg.access_image_uri.getD "")))
      (evs : List String)
      (he1 : Role.get_role_attribute ex "eraccesstag" = some evs)
      (he2 : counterEq (cfg.access_search_terms.getD []) evs)
      (ivs : List String)
      (hi1 : Role.get_role_attribute ex "eradditionalinformation" = some ivs)
      (hi2 : ivs.head? = some (cfg.access_additional_info.getD ""))
      (bvs : List String)
      (hb1 : Role.get_role_attribute ex "erbadge" = some bvs)
      (hb2 : counterEq ((cfg.access_badges.getD []).map (fun b => b.text ++ "~" ++ b.colour)) bvs)
      (svs : List String)
      (hs1 : Role.get_role_attribute ex "erroleassignmentkey" = some svs)
      (hs2 : counterEq (cfg.assignment_attributes.getD []) svs),
      Role.apply cfg [ex] = .ok { calls := [], rc := 0, changed := false, warnings := [] }) ∧
    (∀ (path profile name : String) (descr : Option String) (apd : List String)
      (parentDn : String) (results : List Entity) (cm : Bool) (pfx : String) (ex : Entity)
      (h1 : path.length > 0) (h2 : profile.length > 0) (h3 : name.length > 0)
      (hpfx : Container.profileToPfx profile = .ok pfx)
      (hsplit : pySplit2S ':' ':' (pfx ++ "::" ++ name) = [pfx, name])
      (hfilt : guoFilterLoop (fun e => e.name != name) erparentOf parentDn results
        results.length = .ok [ex])
      (hdesc : profile = "Organization" ∨ profile = "OrganizationalUnit" ∨
        profile = "Location" ∨ profile = "AdminDomain" → descEqProp (descr.getD "") ex)
      (hsup : profile = "OrganizationalUnit" ∨ profile = "Location" →
        personLinkEqProp (firstOrEmpty apd) "erSupervisor" ex)
      (hspo : profile = "BPOrganization" →
        personLinkEqProp (firstOrEmpty apd) "erSponsor" ex)
      (hadm : profile = "AdminDomain" → adminsEqProp apd ex),
      Container.apply path profile name descr apd parentDn results cm false =
        .ok { calls := [], rc := 0, changed := false, warnings := [] }) :=
  ⟨role_apply_noChange, container_apply_noChange⟩

/-- Existing role whose attributes all match the witness configuration. -/
def c1RoleEx : Entity :=
  { itimDN := "erglobalid=9,ou=roles,dc=com", name := "RoleA", profileName := "",
    description := "d1",
    attributes := [
      { name := "erroleclassification", values := ["role.classification.application"] },
      { name := "description", values := ["d1"] },
      { name := "owner", values := ["o1"] },
      { name := "eraccessoption", values := ["2"] },
      { name := "erobjectprofilename", values := ["Application"] },
      { name := "erimageuri", values := ["uri1"] },
      { name := "eraccesstag", values := ["t1"] },
      { name := "eradditionalinformation", values := ["i1"] },
      { name := "erbadge", values := ["b~red"] },
      { name := "erroleassignmentkey", values := ["k1"] }] }

/-- Witness role configuration matching `c1RoleEx` field for field. -/
def c1RoleCfg : Role.Config :=
  { container_dn := "ou=org,dc=com", name := "RoleA", role_classification := "application",
    description := some "d1", role_owners := some ["o1"], user_owners := some [],
    enable_access := some true, common_access := some false,
    access_type := some "application", access_image_uri := some "uri1",
    access_search_terms := some ["t1"], access_additional_info := some "i1",
    access_badges := some [{ text := "b", colour := "red" }],
    assignment_attributes := some ["k1"] }

/-- Existing container matching the witness configuration. -/
def c1ContEx : Entity :=
  { itimDN := "ou=x,o=A", name := "x", profileName := "OrganizationalUnit",
    description := "",
    attributes := [{ name := "description", values := ["old"] },
                   { name := "erSupervisor", values := ["s1"] },
                   { name := "erparent", values := ["P"] }] }

/-- Closed instances of C1 for the role and container kinds: a desired
configuration equal to the existing object yields `changed=false` and no
mutating call. -/
theorem claim_C1_apply_idempotent_witness :
    Role.apply c1RoleCfg [c1RoleEx] =
      .ok { calls := [], rc := 0, changed := false, warnings := [] } ∧
    Container.apply "//Org" "OrganizationalUnit" "x" (some "old") ["s1"] "P" [c1ContEx]
        false false =
      .ok { calls := [], rc := 0, changed := false, warnings := [] } :=
  ⟨claim_C1_apply_idempotent.1 c1RoleCfg c1RoleEx (by decide) (by decide) (by decide)
    ["role.classification.application"] (by rfl) (Or.inl ⟨by rfl, by rfl⟩)
    ["d1"] (by rfl) (by rfl) (by rfl)
    ["o1"] (by rfl) (by decide)
    ["2"] (by rfl) (Or.inr (Or.inl ⟨by rfl, by rfl, by rfl⟩))
    ["Application"] (by rfl) (Or.inl ⟨by rfl, by rfl⟩)
    (Or.inr ⟨["uri1"], by rfl, by rfl⟩)
    ["t1"] (by rfl) (by decide)
    ["i1"] (by rfl) (by rfl)
    ["b~red"] (by rfl) (by decide)
    ["k1"] (by rfl) (by decide),
   claim_C1_apply_idempotent.2 "//Org" "OrganizationalUnit" "x" (some "old") ["s1"] "P"
    [c1ContEx] false "ou" c1ContEx (by decide) (by decide) (by decide) (by rfl)
    (by decide) (by rfl)
    (fun _ => by rfl) (fun _ => by rfl)
    (fun h => absurd h (by decide)) (fun h => absurd h (by decide))⟩

/-! ## Claim C6: container kind-name asymmetry -/

/-- Modelled from the spec: the remote `searchContainerByName` service (an
external collaborator not in this repository) maintains the bidirectional
kind-name table, so a search submitted with a caller-side kind token matches
objects stored under the corresponding create-side marker.  Per the spec, the
admin-domain kind is submitted as `SecurityDomain` on create but searched via
the pre-creation token, and the business-partner kind as
`BusinessPartnerOrganization`; the other three kinds use one token. -/
def serverKindOfCreateMarker (marker : String) : Option String :=
  if marker = "SecurityDomain" then some "AdminDomain"
  else if marker = "BusinessPartnerOrganization" then some "BPOrganization"
  else if marker = "Organization" ∨ marker = "OrganizationalUnit" ∨
      marker = "Location" then some marker
  else none

/-- C6: creating an `AdminDomain` container submits the marker
`SecurityDomain` and a `BPOrganization` submits
`BusinessPartnerOrganization`, while the search side validates and submits
the caller's pre-creation token unchanged; under the spec's bidirectional
kind table the search token therefore locates the object created with the
asymmetric create-side marker, and the other three kinds use the same token
in both directions. -/
theorem claim_C6_kind_name_asymmetry :
    Container.createProfileName "AdminDomain" = "SecurityDomain" ∧
    Container.createProfileName "BPOrganization" = "BusinessPartnerOrganization" ∧
    (∀ p, p = "Organization" ∨ p = "OrganizationalUnit" ∨ p = "Location" →
      Container.createProfileName p = p) ∧
    (∀ p, p = "Organization" ∨ p = "OrganizationalUnit" ∨ p = "Location" ∨
        p = "AdminDomain" ∨ p = "BPOrganization" →
      Container.searchProfileArgument p = .ok p ∧
      serverKindOfCreateMarker (Container.createProfileName p) = some p) := by
  refine ⟨by rfl, by rfl, ?_, ?_⟩
  · intro p hp
    rcases hp with hp | hp | hp <;> subst hp <;> rfl
  · intro p hp
    rcases hp with hp | hp | hp | hp | hp <;> subst hp <;> exact ⟨by rfl, by rfl⟩

/-- Closed instance of the asymmetry round trip for `AdminDomain`. -/
theorem claim_C6_kind_name_asymmetry_witness :
    Container.searchProfileArgument "AdminDomain" = .ok "AdminDomain" ∧
    serverKindOfCreateMarker (Container.createProfileName "AdminDomain") =
      some "AdminDomain" :=
  claim_C6_kind_name_asymmetry.2.2.2 "AdminDomain" (by simp)

/-! ## Claim C7: role owner merge-overwrite -/

/-- The description segment never contributes an `owner` attribute. -/
theorem filterOwner_descSegment (d : Option String) :
    (Role.descSegment d).filter (fun a => a.name == "owner") = [] := by
  cases d <;> rfl

/-- The access-option segment never contributes an `owner` attribute. -/
theorem filterOwner_accessOptionSegment (ea ca : Option Bool) :
    (Role.accessOptionSegment ea ca).filter (fun a => a.name == "owner") = [] := by
  cases ea with
  | none => rfl
  | some e =>
    cases e with
    | false => rfl
    | true =>
      cases ca with
      | none => rfl
      | some cb => cases cb <;> rfl

/-- The access-description segment never contributes an `owner` attribute. -/
theorem filterOwner_accessDescSegment (d : Option String) :
    (Role.accessDescSegment d).filter (fun a => a.name == "owner") = [] := by
  cases d <;> rfl

/-- The image-URI segment never contributes an `owner` attribute. -/
theorem filterOwner_imageUriSegment (u : Option String) :
    (Role.imageUriSegment u).filter (fun a => a.name == "owner") = [] := by
  cases u <;> rfl

/-- The search-terms segment never contributes an `owner` attribute. -/
theorem filterOwner_termsSegment (ts : Option (List String)) :
    (Role.termsSegment ts).filter (fun a => a.name == "owner") = [] := by
  cases ts <;> rfl

/-- The additional-info segment never contributes an `owner` attribute. -/
theorem filterOwner_infoSegment (i : Option String) :
    (Role.infoSegment i).filter (fun a => a.name == "owner") = [] := by
  cases i <;> rfl

/-- The badge segment never contributes an `owner` attribute. -/
theorem filterOwner_badgeSegment (bs : Option (List Role.Badge)) :
    (Role.badgeSegment bs).filter (fun a => a.name == "owner") = [] := by
  cases bs <;> rfl

/-- The assignment-attribute segment never contributes an `owner`
attribute. -/
theorem filterOwner_assignSegment (as_ : Option (List String)) :
    (Role.assignSegment as_).filter (fun a => a.name == "owner") = [] := by
  cases as_ <;> rfl

/-- The classification segment never contributes an `owner` attribute. -/
theorem filterOwner_clsSegment (rc : Option String) (cls : List WSAttribute)
    (h : Role.clsSegment rc = .ok cls) :
    cls.filter (fun a => a.name == "owner") = [] := by
  cases rc with
  | none =>
    simp only [Role.clsSegment, pure, Except.pure, Except.ok.injEq] at h
    subst h; rfl
  | some c =>
    simp only [Role.clsSegment] at h
    split_ifs at h <;>
      first
      | (simp only [pure, Except.pure, Except.ok.injEq] at h; subst h; rfl)
      | simp at h

/-- The access-type segment never contributes an `owner` attribute. -/
theorem filterOwner_accessTypeSegment (t : Option String) (ty : List WSAttribute)
    (h : Role.accessTypeSegment t = .ok ty) :
    ty.filter (fun a => a.name == "owner") = [] := by
  cases t with
  | none =>
    simp only [Role.accessTypeSegment, pure, Except.pure, Except.ok.injEq] at h
    subst h; rfl
  | some c =>
    simp only [Role.accessTypeSegment] at h
    split_ifs at h <;>
      first
      | (simp only [pure, Except.pure, Except.ok.injEq] at h; subst h; rfl)
      | simp at h

/-- C7: in the role attribute list builder, leaving both owner lists at the
no-change sentinel omits the `owner` attribute entirely, while providing
either list produces exactly one merged `owner` attribute whose value is
exactly the provided list(s), overwriting the whole merged owner list. -/
theorem claim_C7_owner_merge_overwrite
    (rc d : Option String) (ro uo : Option (List String)) (ea ca : Option Bool)
    (at_ uri : Option String) (terms : Option (List String)) (info : Option String)
    (badges : Option (List Role.Badge)) (assign : Option (List String))
    (attrs : List WSAttribute)
    (h : Role.build_role_attributes_list rc d ro uo ea ca at_ uri terms info badges
      assign = .ok attrs) :
    (ro = none ∧ uo = none → attrs.filter (fun a => a.name == "owner") = []) ∧
    (∀ r, ro = some r ∧ uo = none →
      attrs.filter (fun a => a.name == "owner") = [build_attribute "owner" (r.map .str)]) ∧
    (∀ u, ro = none ∧ uo = some u →
      attrs.filter (fun a => a.name == "owner") = [build_attribute "owner" (u.map .str)]) ∧
    (∀ r u, ro = some r ∧ uo = some u →
      attrs.filter (fun a => a.name == "owner") =
        [build_attribute "owner" ((r ++ u).map .str)]) := by
  unfold Role.build_role_attributes_list at h
  obtain ⟨cls, hcls, h2⟩ := exceptBindOk h
  clear h
  obtain ⟨ty, hty, h3⟩ := exceptBindOk h2
  clear h2
  simp only [pure, Except.pure, Except.ok.injEq] at h3
  have hclsF := filterOwner_clsSegment rc cls hcls
  have htyF := filterOwner_accessTypeSegment at_ ty hty
  refine ⟨?_, ?_, ?_, ?_⟩
  · rintro ⟨hro, huo⟩
    subst hro huo
    rw [← h3]
    simp [List.filter_append, hclsF, htyF, filterOwner_descSegment,
      filterOwner_accessOptionSegment, filterOwner_accessDescSegment,
      filterOwner_imageUriSegment, filterOwner_termsSegment, filterOwner_infoSegment,
      filterOwner_badgeSegment, filterOwner_assignSegment, Role.ownerSegment]
  · rintro r ⟨hro, huo⟩
    subst hro huo
    rw [← h3]
    simp [List.filter_append, hclsF, htyF, filterOwner_descSegment,
      filterOwner_accessOptionSegment, filterOwner_accessDescSegment,
      filterOwner_imageUriSegment, filterOwner_termsSegment, filterOwner_infoSegment,
      filterOwner_badgeSegment, filterOwner_assignSegment, Role.ownerSegment,
      build_attribute]
  · rintro u ⟨hro, huo⟩
    subst hro huo
    rw [← h3]
    simp [List.filter_append, hclsF, htyF, filterOwner_descSegment,
      filterOwner_accessOptionSegment, filterOwner_accessDescSegment,
      filterOwner_imageUriSegment, filterOwner_termsSegment, filterOwner_infoSegment,
      filterOwner_badgeSegment, filterOwner_assignSegment, Role.ownerSegment,
      build_attribute]
  · rintro r u ⟨hro, huo⟩
    subst hro huo
    rw [← h3]
    simp [List.filter_append, hclsF, htyF, filterOwner_descSegment,
      filterOwner_accessOptionSegment, filterOwner_accessDescSegment,
      filterOwner_imageUriSegment, filterOwner_termsSegment, filterOwner_infoSegment,
      filterOwner_badgeSegment, filterOwner_assignSegment, Role.ownerSegment,
      build_attribute]

/-- Closed instance of the owner merge-overwrite rule: providing only
`role_owners` sends a single `owner` attribute containing exactly that list,
while both sentinels omit the attribute. -/
theorem claim_C7_owner_merge_overwrite_witness :
    ([build_attribute "owner" [.str "r1"]].filter (fun a => a.name == "owner")) =
      [build_attribute "owner" ((["r1"] : List String).map .str)] :=
  (claim_C7_owner_merge_overwrite none none (some ["r1"]) none none none none none none
    none none none [build_attribute "owner" [.str "r1"]] (by rfl)).2.1 ["r1"] ⟨rfl, rfl⟩

/-! ## Claim C5: the path resolver (`DNEncoder`)

The resolver manipulates Python strings with `str.split`; to reason about
splitting, strings are modelled here as lists of characters (`PyStr`).  The
remote service's `lookupContainer` and `searchContainerByName` operations are
modelled over an explicit directory of container records. -/

/-- Python strings of the resolver, modelled as lists of characters. -/
abbrev PyStr := List Char

/-- Character list of a string literal. -/
def strC (s : String) : PyStr := s.data

/-- The path separator `"//"`. -/
def slashes : PyStr := ['/', '/']

/-- The profile-prefix separator `"::"`. -/
def colons : PyStr := [':', ':']

/-- Container record as returned by the modelled remote service: the fixed
fields read by the resolver plus the attribute list (holding `erparent`). -/
structure CEntity where
  itimDN : PyStr
  name : PyStr
  profileName : PyStr
  attributes : List (PyStr × List PyStr)
deriving DecidableEq, Repr

/-- Case-insensitive attribute lookup on a container record, mirroring
`tools.get_soap_attribute`. -/
def cGetAttr (e : CEntity) (key : PyStr) : Option (List PyStr) :=
  (e.attributes.find? (fun a => a.1.map pyCharLower = key.map pyCharLower)).map (·.2)

/-- First value of the `erparent` attribute, when present. -/
def erparentHeadC (e : CEntity) : Option PyStr :=
  (cGetAttr e (strC "erparent")).bind List.head?

/-- Parent-link extraction used inside the `get_unique_object` filter loop:
`get_soap_attribute(result, "erparent")[0]` with its Python failure modes. -/
def erparentValC (e : CEntity) : Except String PyStr :=
  match cGetAttr e (strC "erparent") with
  | none => .error "TypeError: NoneType object is not subscriptable"
  | some vs => pyIndex vs 0

/-- Directory model of the remote service: the well-known root identifier,
the container records, and the organization map the `DNEncoder` builds at
construction time from `getOrganizationTree`. -/
structure Dir where
  rootDn : PyStr
  containers : List CEntity
  orgMap : List (PyStr × PyStr)

/-- Organization-map lookup (`self.organization_map[name]`). -/
def lookupOrg (m : List (PyStr × PyStr)) (k : PyStr) : Option PyStr :=
  (m.find? (fun p => p.1 = k)).map (·.2)

/-- Modelled remote `lookupContainer`: find the container record with the
given identifier; `none` models the service's empty result (whose
`profileName is None` branch `dn_to_container_path` turns into an error). -/
def containerGet (d : Dir) (dn : PyStr) : Option CEntity :=
  d.containers.find? (fun e => e.itimDN = dn)

/-- Whether `dn` lies in the subtree rooted at `anc`, following `erparent`
links for at most `fuel` steps. -/
def inSubtree (d : Dir) : Nat → PyStr → PyStr → Bool
  | 0, _, _ => false
  | fuel + 1, anc, dn =>
    decide (dn = anc) ||
      (match containerGet d dn with
       | none => false
       | some e =>
         match erparentHeadC e with
         | none => false
         | some p => inSubtree d fuel anc p)

/-- Modelled from the spec: the remote `searchContainerByName` returns every
container in the subtree of the given container whose name and profile match
exactly (container search is descendant-recursive). -/
def searchContainerByName (d : Dir) (fuel : Nat) (parentDn profile name : PyStr) :
    List CEntity :=
  d.containers.filter
    (fun e => decide (e.name = name) && decide (e.profileName = profile) &&
      inSubtree d fuel parentDn e.itimDN)

/-- Embedding of `container.search` over the directory model: retrieve the
parent container, validate the caller profile token, submit the search.
The `strip_zeep_element_data` post-processing step (not present under
`src/`) is modelled as the identity on the abstract records. -/
def containerSearchAccessor (d : Dir) (fuel : Nat) (parentDn profile name : PyStr) :
    Except String (List CEntity) :=
  match containerGet d parentDn with
  | none => .error "Cannot retrieve the parent container."
  | some parent =>
    if profile = strC "Organization" ∨ profile = strC "OrganizationalUnit" ∨
        profile = strC "Location" ∨ profile = strC "AdminDomain" ∨
        profile = strC "BPOrganization" then
      .ok (searchContainerByName d fuel parent.itimDN profile name)
    else
      .error "is not a valid container profile"

/-- Prefix-to-profile mapping of the container branch of
`get_unique_object` (source lines 253-265), at the character-list level. -/
def pfxToProfileC (p : PyStr) : Except String PyStr :=
  if p = strC "o" then .ok (strC "Organization")
  else if p = strC "ou" then .ok (strC "OrganizationalUnit")
  else if p = strC "bp" then .ok (strC "BPOrganization")
  else if p = strC "lo" then .ok (strC "Location")
  else if p = strC "ad" then .ok (strC "AdminDomain")
  else .error "is not a valid value for a profile prefix"

/-- Profile-to-prefix mapping of `dn_to_container_path` (source lines
414-421) for the four non-organization profiles; the source tests these four
constants in an `elif` chain, so testing them in any order is equivalent. -/
def dnPfxOf (profileName : PyStr) : Option PyStr :=
  if profileName = strC "BPOrganization" then some (strC "bp")
  else if profileName = strC "Location" then some (strC "lo")
  else if profileName = strC "AdminDomain" then some (strC "ad")
  else if profileName = strC "OrganizationalUnit" then some (strC "ou")
  else none

/-- Loop of `DNEncoder.dn_to_container_path` (source lines 389-429): walk up
the `erparent` chain accumulating `//prefix::name` segments until an
Organization is reached.  A missing record models the service's
empty-`profileName` result; the field-presence check of the source holds
trivially for the modelled container records. -/
def dtcLoop (d : Dir) : Nat → PyStr → PyStr → Except String PyStr
  | 0, _, _ => .error "resolver recursion limit exceeded"
  | fuel + 1, acc, current_dn =>
    match containerGet d current_dn with
    | none => .error "The DN could not be found in the system."
    | some result =>
      match dnPfxOf result.profileName with
      | some pfx => do
        let parent_dn ← erparentValC result
        dtcLoop d fuel (slashes ++ pfx ++ colons ++ result.name ++ acc) parent_dn
      | none =>
        if result.profileName = strC "Organization" then
          .ok (slashes ++ result.name ++ acc)
        else
          .error "does not have a valid container profile"

/-- Embedding of `DNEncoder.dn_to_container_path`: the root identifier maps
to `"//"`, anything else starts the upward walk. -/
def dn_to_container_path (d : Dir) (fuel : Nat) (dn : PyStr) : Except String PyStr :=
  if dn = d.rootDn then .ok slashes else dtcLoop d fuel [] dn

/-- Error message of the malformed-path branches of `container_path_to_dn`. -/
def pathFormatError : String :=
  "is not a valid path. Paths must be of the format //organization_name//profile::container_name"

mutual

/-- Embedding of `DNEncoder.container_path_to_dn` (source lines 311-366):
validate the path shape, resolve the organization through the organization
map, then walk down one component at a time.  The fuel argument is a
modelling artifact bounding the mutual recursion depth; every result below
is stated for sufficiently large fuel. -/
def container_path_to_dn (d : Dir) : Nat → PyStr → Except String PyStr
  | 0, _ => .error "resolver recursion limit exceeded"
  | fuel + 1, path =>
    let components := pySplit2 '/' '/' path
    if components.length < 2 then .error pathFormatError
    else if ¬ (components.head? = some []) then .error pathFormatError
    else if components.length = 2 ∧ components[1]? = some [] then .ok d.rootDn
    else if (components.drop 1).any (fun c => c.isEmpty) then .error pathFormatError
    else
      match components[1]? with
      | none => .error pathFormatError
      | some orgName =>
        match lookupOrg d.orgMap orgName with
        | none => .error "The organization could not be found."
        | some organization_dn =>
          if components.length = 2 then .ok organization_dn
          else cptdWalk d fuel organization_dn (components.drop 2)

/-- Walk loop of `container_path_to_dn` (source lines 347-366): for each
remaining component, re-derive the parent's path, locate the unique child
through `get_unique_object`, and continue from its identifier. -/
def cptdWalk (d : Dir) : Nat → PyStr → List PyStr → Except String PyStr
  | _, parent_dn, [] => .ok parent_dn
  | 0, _, _ :: _ => .error "resolver recursion limit exceeded"
  | fuel + 1, parent_dn, comp :: rest => do
    let parent_container_path ← dn_to_container_path d (fuel + 1) parent_dn
    let next ← getUniqueObjectContainer d fuel parent_container_path comp
    match next with
    | none => .error "The container could not be found."
    | some e => cptdWalk d fuel e.itimDN rest

/-- Container branch of `DNEncoder.get_unique_object` (source lines 217-309)
over the directory model: convert the parent path back to an identifier,
split the composite `prefix::name`, search, filter by exact name and exact
direct parent with the source's backwards delete loop, and enforce
uniqueness (`None` for zero matches, a hard error for several). -/
def getUniqueObjectContainer (d : Dir) : Nat → PyStr → PyStr → Except String (Option CEntity)
  | 0, _, _ => .error "resolver recursion limit exceeded"
  | fuel + 1, container_path, name => do
    let container_dn ← container_path_to_dn d fuel container_path
    let name_components := pySplit2 ':' ':' name
    if name_components.length ≠ 2 then
      .error "is not a valid value for container name"
    else do
      let nc0 ← pyIndex name_components 0
      let profile ← pfxToProfileC nc0
      let searched ← pyIndex name_components 1
      let results ← containerSearchAccessor d (fuel + 1) container_dn profile searched
      let filtered ← guoFilterLoop (fun e => decide (e.name ≠ searched)) erparentValC
        container_dn results results.length
      if filtered.length > 1 then
        .error "Unable to uniquely identify object. More than one container was found."
      else
        match filtered with
        | [] => pure none
        | x :: _ => pure (some x)

end

/-- No occurrence of the adjacent two-character separator `a, b` in the
character list (so `str.split` leaves the string whole). -/
def noSep2 (a b : Char) : List Char → Bool
  | [] => true
  | [_] => true
  | c :: d :: rest => !(decide (c = a) && decide (d = b)) && noSep2 a b (d :: rest)

/-- Concatenation of path components, each preceded by `"//"`: the shape in
which `dn_to_container_path` accumulates its output. -/
def joinComps : List PyStr → PyStr
  | [] => []
  | c :: cs => slashes ++ c ++ joinComps cs

/-- The canonical hierarchical path of a container: `"//" ++ organization
name ++ "//profile_prefix::name"` for every level below the organization. -/
def containerPath (org : CEntity) (comps : List PyStr) : PyStr :=
  slashes ++ org.name ++ joinComps comps

/-- Fuel sufficient for the downward walk of `container_path_to_dn` over a
path with the given number of components below the organization. -/
def walkFuel : Nat → Nat
  | 0 => 0
  | n + 1 => walkFuel n + n + 4

/-- A container reachable from organization `org` in the directory, together
with the path components below the organization that designate it.  The base
is an organization registered in the organization map; each step descends to
a recorded child of one of the four non-organization profiles through its
`erparent` link. -/
inductive Reach (d : Dir) : CEntity → CEntity → List PyStr → Prop
  | org : ∀ {o : CEntity}, o ∈ d.containers →
      o.profileName = strC "Organization" →
      lookupOrg d.orgMap o.name = some o.itimDN → Reach d o o []
  | child : ∀ {o p e : CEntity} {comps : List PyStr} {pfx : PyStr},
      Reach d o p comps → e ∈ d.containers →
      dnPfxOf e.profileName = some pfx →
      erparentHeadC e = some p.itimDN →
      Reach d o e (comps ++ [pfx ++ colons ++ e.name])

/-- Well-formedness of the directory model: distinct records, identifiers
resolving to their own record, no record reusing the root identifier, every
record carrying an `erparent` value, names nonempty and free of the two
separators, and — the claim's proviso — sibling containers with the same
profile having unique names (name, profile and parent determine the record). -/
def DirWF (d : Dir) : Prop :=
  d.containers.Nodup ∧
  (∀ e ∈ d.containers, containerGet d e.itimDN = some e) ∧
  (∀ e ∈ d.containers, e.itimDN ≠ d.rootDn) ∧
  (∀ e ∈ d.containers, (erparentHeadC e).isSome = true) ∧
  (∀ e ∈ d.containers, e.name ≠ [] ∧ (∀ ch ∈ e.name, ch ≠ '/' ∧ ch ≠ ':')) ∧
  (∀ x ∈ d.containers, ∀ y ∈ d.containers,
    x.name = y.name → x.profileName = y.profileName →
    erparentHeadC x = erparentHeadC y → x = y)

instance (d : Dir) : Decidable (DirWF d) := by
  unfold DirWF; infer_instance

/-- A list whose characters all avoid the separator's first character stays
separator-free under any continuation that is itself separator-free. -/
theorem noSep2_append_of_forall (a b : Char) (xs ys : List Char)
    (h : ∀ c ∈ xs, c ≠ a) (h2 : noSep2 a b ys = true) :
    noSep2 a b (xs ++ ys) = true := by
  induction xs with
  | nil => simpa using h2
  | cons c xs ih =>
    have hc : c ≠ a := h c (List.mem_cons_self _ _)
    have ih2 : noSep2 a b (xs ++ ys) = true :=
      ih (fun c hm => h c (List.mem_cons_of_mem _ hm))
    cases hxy : xs ++ ys with
    | nil => rw [List.cons_append, hxy]; simp [noSep2]
    | cons d t =>
      rw [List.cons_append, hxy]
      rw [hxy] at ih2
      simp [noSep2, ih2, hc]

/-- A list whose characters all avoid the separator's first character is
separator-free. -/
theorem noSep2_of_forall (a b : Char) (xs : List Char)
    (h : ∀ c ∈ xs, c ≠ a) : noSep2 a b xs = true := by
  have := noSep2_append_of_forall a b xs [] h (by simp [noSep2])
  simpa using this

/-- `str.split` on a separator-free string returns the whole string. -/
theorem pySplit2_noSep (a b : Char) (xs : List Char)
    (h : noSep2 a b xs = true) : pySplit2 a b xs = [xs] := by
  induction xs with
  | nil => simp [pySplit2]
  | cons c xs ih =>
    cases xs with
    | nil => simp [pySplit2]
    | cons d t =>
      simp only [noSep2, Bool.and_eq_true, Bool.not_eq_eq_eq_not, Bool.not_true,
        Bool.and_eq_false_iff, decide_eq_false_iff_not] at h
      have h1 : ¬(c = a ∧ d = b) := by
        intro hh
        rcases h.1 with h1 | h1
        · exact h1 hh.1
        · exact h1 hh.2
      have h2 : pySplit2 a b (d :: t) = [d :: t] := ih h.2
      simp [pySplit2, h1, h2]

/-- `str.split` at the first separator occurrence: a separator-free chunk
(also not recreating the separator against the following `a`) followed by
the separator splits off as the first component. -/
theorem pySplit2_sep (a b : Char) (xs ys : List Char)
    (h : noSep2 a b (xs ++ [a]) = true) :
    pySplit2 a b (xs ++ a :: b :: ys) = xs :: pySplit2 a b ys := by
  induction xs with
  | nil => simp [pySplit2]
  | cons c xs ih =>
    cases xs with
    | nil =>
      simp only [noSep2, Bool.and_eq_true, List.cons_append, List.nil_append,
        Bool.not_eq_eq_eq_not, Bool.not_true, Bool.and_eq_false_iff,
        decide_eq_false_iff_not] at h
      have h1 : ¬(c = a ∧ a = b) := fun hh => by
        rcases h.1 with h1 | h1
        · exact h1 hh.1
        · exact h1 hh.2
      simp [pySplit2, h1]
    | cons d t =>
      have h' : noSep2 a b ((d :: t) ++ [a]) = true := by
        simp only [List.cons_append, noSep2, Bool.and_eq_true] at h ⊢
        exact h.2
      have h1 : ¬(c = a ∧ d = b) := by
        simp only [List.cons_append, noSep2, Bool.and_eq_true,
          Bool.not_eq_eq_eq_not, Bool.not_true, Bool.and_eq_false_iff,
          decide_eq_false_iff_not] at h
        intro hh
        rcases h.1 with h1 | h1
        · exact h1 hh.1
        · exact h1 hh.2
      have ih2 := ih h'
      rw [List.cons_append] at ih2 ⊢
      rw [List.cons_append]
      simp [pySplit2, h1, ih2]

/-- Appending one component to the accumulated path shape. -/
theorem joinComps_append (xs : List PyStr) (c : PyStr) :
    joinComps (xs ++ [c]) = joinComps xs ++ (slashes ++ c) := by
  induction xs with
  | nil => simp [joinComps]
  | cons x xs ih => simp [joinComps, ih, List.append_assoc]

/-- Splitting a name followed by `"//"`-joined components recovers the name
and the components, provided none of them contains a `/`. -/
theorem pySplit2_join (name : PyStr) (comps : List PyStr)
    (hn : ∀ ch ∈ name, ch ≠ '/')
    (hc : ∀ c ∈ comps, ∀ ch ∈ c, ch ≠ '/') :
    pySplit2 '/' '/' (name ++ joinComps comps) = name :: comps := by
  induction comps generalizing name with
  | nil =>
    rw [joinComps, List.append_nil]
    exact pySplit2_noSep '/' '/' name (noSep2_of_forall '/' '/' name hn)
  | cons c cs ih =>
    have hshape : name ++ joinComps (c :: cs) =
        name ++ '/' :: '/' :: (c ++ joinComps cs) := by
      simp [joinComps, slashes]
    rw [hshape, pySplit2_sep '/' '/' name (c ++ joinComps cs)
      (noSep2_append_of_forall '/' '/' name ['/'] hn (by simp [noSep2]))]
    rw [ih c (hc c (List.mem_cons_self _ _))
      (fun x hx => hc x (List.mem_cons_of_mem _ hx))]

/-- Splitting the canonical container path yields the empty head, the
organization name, and the components. -/
theorem containerPath_split (org : CEntity) (comps : List PyStr)
    (hn : ∀ ch ∈ org.name, ch ≠ '/')
    (hc : ∀ c ∈ comps, ∀ ch ∈ c, ch ≠ '/') :
    pySplit2 '/' '/' (containerPath org comps) = [] :: org.name :: comps := by
  have hshape : containerPath org comps =
      '/' :: '/' :: (org.name ++ joinComps comps) := by
    simp [containerPath, slashes]
  rw [hshape]
  show pySplit2 '/' '/' ('/' :: '/' :: (org.name ++ joinComps comps)) = _
  rw [show ('/' :: '/' :: (org.name ++ joinComps comps)) =
    ([] ++ '/' :: '/' :: (org.name ++ joinComps comps)) from rfl]
  rw [pySplit2_sep '/' '/' [] _ (by simp [noSep2])]
  rw [pySplit2_join org.name comps hn hc]

/-- The walk fuel dominates the number of components. -/
theorem walkFuel_ge (n : Nat) : n ≤ walkFuel n := by
  induction n with
  | zero => simp [walkFuel]
  | succ n ih => rw [walkFuel]; omega

/-- The four profile names mapped by `dn_to_container_path` to a prefix,
with the corresponding prefix of each. -/
theorem dnPfxOf_cases {prof pfx : PyStr} (h : dnPfxOf prof = some pfx) :
    (prof = strC "BPOrganization" ∧ pfx = strC "bp") ∨
    (prof = strC "Location" ∧ pfx = strC "lo") ∨
    (prof = strC "AdminDomain" ∧ pfx = strC "ad") ∨
    (prof = strC "OrganizationalUnit" ∧ pfx = strC "ou") := by
  unfold dnPfxOf at h
  split_ifs at h with h1 h2 h3 h4
  · exact Or.inl ⟨h1, (Option.some.inj h).symm⟩
  · exact Or.inr (Or.inl ⟨h2, (Option.some.inj h).symm⟩)
  · exact Or.inr (Or.inr (Or.inl ⟨h3, (Option.some.inj h).symm⟩))
  · exact Or.inr (Or.inr (Or.inr ⟨h4, (Option.some.inj h).symm⟩))

/-- Character-level facts about the profile prefixes: nonempty and free of
both separator characters. -/
theorem pfx_chars {prof pfx : PyStr} (h : dnPfxOf prof = some pfx) :
    pfx ≠ [] ∧ (∀ ch ∈ pfx, ch ≠ '/' ∧ ch ≠ ':') := by
  rcases dnPfxOf_cases h with ⟨_, h2⟩ | ⟨_, h2⟩ | ⟨_, h2⟩ | ⟨_, h2⟩ <;>
    subst h2 <;> exact ⟨by decide, by decide⟩

/-- The prefix-to-profile map of `get_unique_object` inverts the
profile-to-prefix map of `dn_to_container_path`. -/
theorem pfxToProfileC_dnPfxOf {prof pfx : PyStr} (h : dnPfxOf prof = some pfx) :
    pfxToProfileC pfx = .ok prof := by
  rcases dnPfxOf_cases h with ⟨h1, h2⟩ | ⟨h1, h2⟩ | ⟨h1, h2⟩ | ⟨h1, h2⟩ <;>
    subst h1 <;> subst h2 <;> decide

/-- A profile carrying a prefix passes the `container.search` profile
validation. -/
theorem profile_valid_of_dnPfxOf {prof pfx : PyStr} (h : dnPfxOf prof = some pfx) :
    prof = strC "Organization" ∨ prof = strC "OrganizationalUnit" ∨
    prof = strC "Location" ∨ prof = strC "AdminDomain" ∨
    prof = strC "BPOrganization" := by
  rcases dnPfxOf_cases h with ⟨h1, _⟩ | ⟨h1, _⟩ | ⟨h1, _⟩ | ⟨h1, _⟩ <;>
    rw [h1] <;> decide

/-- When the head of the `erparent` value list is known, the loop's
subscripted extraction succeeds with it. -/
theorem erparentVal_of_head {e : CEntity} {v : PyStr}
    (h : erparentHeadC e = some v) : erparentValC e = .ok v := by
  unfold erparentHeadC at h
  cases hg : cGetAttr e (strC "erparent") with
  | none => rw [hg] at h; cases h
  | some vs =>
    rw [hg] at h
    simp only [Option.some_bind] at h
    have h0 : vs[0]? = some v := by rw [← List.head?_eq_getElem?]; exact h
    simp [erparentValC, hg, pyIndex, h0]

/-- A container lies in its own subtree (one step of fuel suffices). -/
theorem inSubtree_self (d : Dir) (k : Nat) (anc : PyStr) (h : 1 ≤ k) :
    inSubtree d k anc anc = true := by
  obtain ⟨k', rfl⟩ : ∃ k', k = k' + 1 := ⟨k - 1, by omega⟩
  simp [inSubtree]

/-- A recorded container whose parent link reaches the ancestor lies in the
ancestor's subtree with one more step of fuel. -/
theorem inSubtree_child {d : Dir} {x : CEntity} {anc pdn : PyStr} (k : Nat)
    (hget : containerGet d x.itimDN = some x)
    (hpar : erparentHeadC x = some pdn)
    (h : inSubtree d k anc pdn = true) :
    inSubtree d (k + 1) anc x.itimDN = true := by
  simp [inSubtree, hget, hpar, h]

/-- Both endpoints of a reachability derivation are recorded containers. -/
theorem reach_mem {d : Dir} {org e : CEntity} {comps : List PyStr}
    (h : Reach d org e comps) : e ∈ d.containers ∧ org ∈ d.containers := by
  induction h with
  | org hm _ _ => exact ⟨hm, hm⟩
  | child _ hm _ _ ih => exact ⟨hm, ih.2⟩

/-- The base of a reachability derivation is a registered organization. -/
theorem reach_org_facts {d : Dir} {org e : CEntity} {comps : List PyStr}
    (h : Reach d org e comps) :
    org.profileName = strC "Organization" ∧
    lookupOrg d.orgMap org.name = some org.itimDN := by
  induction h with
  | org _ hp hl => exact ⟨hp, hl⟩
  | child _ _ _ _ ih => exact ih

/-- Every component of a reachable container's path is nonempty and free of
the path separator character. -/
theorem reach_comps_chars {d : Dir} {org e : CEntity} {comps : List PyStr}
    (hwf : DirWF d) (h : Reach d org e comps) :
    ∀ c ∈ comps, c ≠ [] ∧ (∀ ch ∈ c, ch ≠ '/') := by
  induction h with
  | org _ _ _ => intro c hc; cases hc
  | child hr hm hpfx hpar ih =>
    intro c hc
    rcases List.mem_append.mp hc with hc | hc
    · exact ih c hc
    · rcases List.mem_singleton.mp hc with rfl
      obtain ⟨hpne, hpch⟩ := pfx_chars hpfx
      obtain ⟨hnne, hnch⟩ := hwf.2.2.2.2.1 _ hm
      constructor
      · simp [hpne]
      · intro ch hch
        rcases List.mem_append.mp hch with hch | hch
        · rcases List.mem_append.mp hch with hch | hch
          · exact (hpch ch hch).1
          · have hcol : ch = ':' := by simpa [colons] using hch
            subst hcol; decide
        · exact (hnch ch hch).1

/-- Upward walk: the accumulator loop of `dn_to_container_path` reconstructs
the canonical path of any reachable container, for any accumulator and any
fuel exceeding the component count. -/
theorem dtcLoop_reach {d : Dir} (hwf : DirWF d) {org e : CEntity}
    {comps : List PyStr} (hr : Reach d org e comps) :
    ∀ (acc : PyStr) (fuel : Nat), comps.length + 1 ≤ fuel →
    dtcLoop d fuel acc e.itimDN = .ok (containerPath org comps ++ acc) := by
  induction hr with
  | org hm hp hl =>
    intro acc fuel hf
    obtain ⟨f, rfl⟩ : ∃ f, fuel = f + 1 := ⟨fuel - 1, by omega⟩
    have hget : containerGet d _ = _ := hwf.2.1 _ hm
    have hpfx : dnPfxOf (strC "Organization") = none := by decide
    rw [dtcLoop]
    simp only [hget, hp, hpfx]
    simp [containerPath, joinComps]
  | child hr hm hpfx hpar ih =>
    intro acc fuel hf
    rw [List.length_append, List.length_singleton] at hf
    obtain ⟨f, rfl⟩ : ∃ f, fuel = f + 1 := ⟨fuel - 1, by omega⟩
    have hget : containerGet d _ = _ := hwf.2.1 _ hm
    rw [dtcLoop]
    simp only [hget, hpfx]
    rw [erparentVal_of_head hpar]
    simp only [Bind.bind, Except.bind]
    rw [ih _ f (by omega)]
    simp [containerPath, joinComps_append, List.append_assoc]

/-- Upward conversion: `dn_to_container_path` maps a reachable container's
identifier to its canonical path. -/
theorem dn_to_path_reach {d : Dir} (hwf : DirWF d) {org e : CEntity}
    {comps : List PyStr} (hr : Reach d org e comps) (fuel : Nat)
    (hf : comps.length + 1 ≤ fuel) :
    dn_to_container_path d fuel e.itimDN = .ok (containerPath org comps) := by
  rw [dn_to_container_path,
    if_neg (hwf.2.2.1 _ (reach_mem hr).1), dtcLoop_reach hwf hr [] fuel hf]
  simp

/-- On data where the name check never fires and the parent extraction is
total, the backwards delete loop of `get_unique_object` acts as a plain
filter on the untraversed elements: entries below the cursor are filtered by
the parent check, entries at and above it are untouched. -/
theorem guoFilterLoop_clean {ε σ : Type} [DecidableEq σ] (nameBad : ε → Bool)
    (parentOf : ε → Except String σ) (dn : σ) (pf : ε → σ) :
    ∀ (i : Nat) (data : List ε), i ≤ data.length →
    (∀ x ∈ data, nameBad x = false) →
    (∀ x ∈ data, parentOf x = .ok (pf x)) →
    guoFilterLoop nameBad parentOf dn data i =
      .ok ((data.take i).filter (fun x => decide (pf x = dn)) ++ data.drop i) := by
  intro i
  induction i with
  | zero => intro data _ _ _; simp [guoFilterLoop]
  | succ i ih =>
    intro data hle hnb hp
    have hi : i < data.length := by omega
    have hmem : data[i] ∈ data := List.getElem_mem hi
    have hnbi : nameBad data[i] = false := hnb _ hmem
    have hpi : parentOf data[i] = .ok (pf data[i]) := hp _ hmem
    have htake : data.take (i + 1) = data.take i ++ [data[i]] := by
      rw [List.take_succ, List.getElem?_eq_getElem hi]
      rfl
    rw [guoFilterLoop]
    simp only [pyIndex, List.getElem?_eq_getElem hi, Bind.bind, Except.bind,
      hnbi, Bool.false_eq_true, if_false, pure, Except.pure, hpi]
    by_cases hc : pf data[i] = dn
    · rw [if_neg (by simp [hc])]
      rw [ih data (by omega) hnb hp]
      have hdrop : data.drop i = data[i] :: data.drop (i + 1) :=
        List.drop_eq_getElem_cons hi
      rw [htake, hdrop, List.filter_append]
      simp [hc, List.append_assoc]
    · rw [if_pos (by simp [hc])]
      rw [pyDel, if_pos hi]
      have hsub : ∀ x ∈ data.eraseIdx i, x ∈ data :=
        fun x hx => (List.eraseIdx_sublist data i).subset hx
      have hle2 : i ≤ (data.eraseIdx i).length := by
        rw [List.length_eraseIdx_of_lt hi]; omega
      show guoFilterLoop nameBad parentOf dn (data.eraseIdx i) i = _
      rw [ih (data.eraseIdx i) hle2 (fun x hx => hnb x (hsub x hx))
        (fun x hx => hp x (hsub x hx))]
      have herase : data.eraseIdx i = data.take i ++ data.drop (i + 1) :=
        List.eraseIdx_eq_take_drop_succ data i
      have hlt : (data.take i).length = i := by
        rw [List.length_take]; omega
      have htake2 : (data.eraseIdx i).take i = data.take i := by
        rw [herase, List.take_append_eq_append_take, hlt]
        simp [List.take_take]
      have hdrop2 : (data.eraseIdx i).drop i = data.drop (i + 1) := by
        rw [herase]
        have := List.drop_left (data.take i) (data.drop (i + 1))
        rw [hlt] at this
        exact this
      rw [htake2, hdrop2, htake, List.filter_append]
      simp [hc]

/-- A list with no duplicates whose predicate holds at `e` and implies
equality to `e` filters to exactly `[e]`. -/
theorem filter_singleton_of_unique {α : Type} (p : α → Bool) (l : List α)
    (e : α) (hnd : l.Nodup) (he : e ∈ l) (hpe : p e = true)
    (hu : ∀ x ∈ l, p x = true → x = e) : l.filter p = [e] := by
  induction l with
  | nil => cases he
  | cons a t ih =>
    rw [List.nodup_cons] at hnd
    by_cases ha : a = e
    · subst ha
      rw [List.filter_cons_of_pos hpe]
      have ht : t.filter p = [] := by
        rw [List.filter_eq_nil_iff]
        intro x hx hpx
        exact hnd.1 ((hu x (List.mem_cons_of_mem _ hx) hpx) ▸ hx)
      rw [ht]
    · have hpa : p a = false := by
        cases hq : p a
        · rfl
        · exact absurd (hu a (List.mem_cons_self _ _) hq) ha
      rw [List.filter_cons_of_neg (by simp [hpa])]
      have het : e ∈ t := by
        rcases List.mem_cons.mp he with h1 | h1
        · exact absurd h1.symm ha
        · exact h1
      exact ih hnd.2 het (fun x hx hpx => hu x (List.mem_cons_of_mem _ hx) hpx)

/-- The walk of `container_path_to_dn` processes its components left to
right, consuming one unit of fuel per component. -/
theorem cptdWalk_append (d : Dir) (xs ys : List PyStr) :
    ∀ (fuel : Nat) (dn : PyStr),
    cptdWalk d fuel dn (xs ++ ys) =
      (cptdWalk d fuel dn xs).bind
        (fun dn2 => cptdWalk d (fuel - xs.length) dn2 ys) := by
  induction xs with
  | nil =>
    intro fuel dn
    simp [cptdWalk, Except.bind]
  | cons c xs ih =>
    intro fuel dn
    cases fuel with
    | zero => simp [cptdWalk, Except.bind]
    | succ f =>
      rw [List.cons_append, cptdWalk, cptdWalk]
      cases hdtc : dn_to_container_path d (f + 1) dn with
      | error msg => simp [Bind.bind, Except.bind, Except.bind]
      | ok pp =>
        simp only [Bind.bind, Except.bind]
        cases hguo : getUniqueObjectContainer d f pp c with
        | error msg => rfl
        | ok next =>
          cases next with
          | none => rfl
          | some e2 =>
            show cptdWalk d f e2.itimDN (xs ++ ys) =
              (cptdWalk d f e2.itimDN xs).bind
                (fun dn2 => cptdWalk d (f + 1 - (c :: xs).length) dn2 ys)
            rw [ih f e2.itimDN, List.length_cons, Nat.succ_sub_succ]

/-- `container_path_to_dn` on a canonical path: once the validation gates
pass and the organization resolves, the result is that of the component
walk started at the organization's identifier. -/
theorem cptd_of_walk (d : Dir) {org : CEntity} {comps : List PyStr}
    {X : PyStr} (f : Nat)
    (hsplit : pySplit2 '/' '/' (containerPath org comps) =
      [] :: org.name :: comps)
    (hname : org.name ≠ [])
    (horg : lookupOrg d.orgMap org.name = some org.itimDN)
    (hcomps : ∀ c ∈ comps, c ≠ [])
    (hwalk : cptdWalk d f org.itimDN comps = .ok X) :
    container_path_to_dn d (f + 1) (containerPath org comps) = .ok X := by
  rw [container_path_to_dn]
  simp only [hsplit]
  rw [if_neg (by simp)]
  rw [if_neg (by simp)]
  rw [if_neg (by
    intro hcontra
    rw [List.getElem?_cons_succ, List.getElem?_cons_zero] at hcontra
    exact hname (Option.some.inj hcontra.2))]
  rw [if_neg (by
    simp only [List.drop_succ_cons, List.drop_zero, List.any_cons,
      Bool.or_eq_true, List.any_eq_true]
    rintro (h1 | ⟨c, hc, h1⟩)
    · exact hname (by simpa using h1)
    · exact hcomps c hc (by simpa using h1))]
  rw [List.getElem?_cons_succ, List.getElem?_cons_zero]
  simp only [horg]
  cases comps with
  | nil =>
    rw [if_pos (by simp)]
    simp only [cptdWalk] at hwalk
    exact congrArg Except.ok (Except.ok.inj hwalk)
  | cons c cs =>
    rw [if_neg (by simp)]
    simpa using hwalk

/-- The root path `"//"` resolves to the well-known root identifier. -/
theorem cptd_root (d : Dir) (fuel : Nat) (h : 1 ≤ fuel) :
    container_path_to_dn d fuel slashes = .ok d.rootDn := by
  obtain ⟨f, rfl⟩ : ∃ f, fuel = f + 1 := ⟨fuel - 1, by omega⟩
  rw [container_path_to_dn]
  rw [show pySplit2 '/' '/' slashes = [[], []] from rfl]
  rw [if_neg (by simp)]
  rw [if_neg (by simp)]
  rw [if_pos (by simp)]

/-- Leaf resolution: under the well-formedness assumptions,
`get_unique_object` on a reachable parent's path and composite child name
finds exactly the recorded child. -/
theorem guo_reach (d : Dir) (hwf : DirWF d) {org p e : CEntity}
    {comps : List PyStr} {pfx : PyStr}
    (hr : Reach d org p comps)
    (hm : e ∈ d.containers)
    (hpfx : dnPfxOf e.profileName = some pfx)
    (hpar : erparentHeadC e = some p.itimDN)
    (g2 : Nat) (hg : 1 ≤ g2)
    (hcptd : container_path_to_dn d g2 (containerPath org comps) =
      .ok p.itimDN) :
    getUniqueObjectContainer d (g2 + 1) (containerPath org comps)
      (pfx ++ colons ++ e.name) = .ok (some e) := by
  have hpmem : p ∈ d.containers := (reach_mem hr).1
  have hnameF := hwf.2.2.2.2.1 _ hm
  have hncs : pySplit2 ':' ':' (pfx ++ colons ++ e.name) = [pfx, e.name] := by
    have hshape : pfx ++ colons ++ e.name = pfx ++ ':' :: ':' :: e.name := by
      simp [colons]
    rw [hshape, pySplit2_sep ':' ':' pfx e.name
      (noSep2_append_of_forall ':' ':' pfx [':']
        (fun ch hch => ((pfx_chars hpfx).2 ch hch).2) (by simp [noSep2]))]
    rw [pySplit2_noSep ':' ':' e.name
      (noSep2_of_forall ':' ':' e.name (fun ch hch => (hnameF.2 ch hch).2))]
  have hresults : containerSearchAccessor d (g2 + 1) p.itimDN e.profileName
      e.name = .ok (searchContainerByName d (g2 + 1) p.itimDN e.profileName
        e.name) := by
    rw [containerSearchAccessor]
    simp only [hwf.2.1 _ hpmem]
    rw [if_pos (profile_valid_of_dnPfxOf hpfx)]
  have hfilterLoop : guoFilterLoop
      (fun x => decide (x.name ≠ e.name)) erparentValC p.itimDN
      (searchContainerByName d (g2 + 1) p.itimDN e.profileName e.name)
      (searchContainerByName d (g2 + 1) p.itimDN e.profileName e.name).length =
      .ok ((searchContainerByName d (g2 + 1) p.itimDN e.profileName
        e.name).filter
          (fun x => decide ((erparentHeadC x).getD [] = p.itimDN))) := by
    have := guoFilterLoop_clean (fun x : CEntity => decide (x.name ≠ e.name))
      erparentValC p.itimDN (fun x => (erparentHeadC x).getD [])
      (searchContainerByName d (g2 + 1) p.itimDN e.profileName e.name).length
      (searchContainerByName d (g2 + 1) p.itimDN e.profileName e.name)
      le_rfl
      (by
        intro x hx
        have hxp := (List.mem_filter.mp hx).2
        simp only [Bool.and_eq_true, decide_eq_true_eq] at hxp
        simp [hxp.1.1])
      (by
        intro x hx
        have hxm := (List.mem_filter.mp hx).1
        obtain ⟨v, hv⟩ := Option.isSome_iff_exists.mp (hwf.2.2.2.1 _ hxm)
        rw [erparentVal_of_head hv]
        simp [hv])
    simpa using this
  have hsingle : (searchContainerByName d (g2 + 1) p.itimDN e.profileName
      e.name).filter (fun x => decide ((erparentHeadC x).getD [] = p.itimDN)) =
      [e] := by
    apply filter_singleton_of_unique _ _ e (List.Nodup.filter _ hwf.1)
    · apply List.mem_filter.mpr
      refine ⟨hm, ?_⟩
      have hsub := inSubtree_child g2 (hwf.2.1 _ hm) hpar
        (inSubtree_self d g2 _ hg)
      simp [hsub]
    · rw [hpar]; simp
    · intro x hx hpx
      have hxm := (List.mem_filter.mp hx).1
      have hxp := (List.mem_filter.mp hx).2
      simp only [Bool.and_eq_true, decide_eq_true_eq] at hxp
      obtain ⟨v, hv⟩ := Option.isSome_iff_exists.mp (hwf.2.2.2.1 _ hxm)
      rw [hv] at hpx
      simp only [Option.getD_some, decide_eq_true_eq] at hpx
      subst hpx
      exact hwf.2.2.2.2.2 x hxm e hm hxp.1.1 hxp.1.2 (hv.trans hpar.symm)
  rw [getUniqueObjectContainer]
  simp only [hcptd, Bind.bind, Except.bind, hncs]
  rw [if_neg (by simp)]
  simp only [pyIndex, List.getElem?_cons_zero, List.getElem?_cons_succ,
    pfxToProfileC_dnPfxOf hpfx, hresults, hfilterLoop, hsingle]
  rfl

/-- Downward walk: with sufficient fuel, the component walk of
`container_path_to_dn` started at the organization's identifier reaches
exactly the designated container. -/
theorem cptdWalk_reach (d : Dir) (hwf : DirWF d) {org e : CEntity}
    {comps : List PyStr} (hr : Reach d org e comps) :
    ∀ fuel, walkFuel comps.length ≤ fuel →
    cptdWalk d fuel org.itimDN comps = .ok e.itimDN := by
  induction hr with
  | org hm hp hl => intro fuel _; simp [cptdWalk]
  | @child p2 e2 cs2 px2 hrp hm hpfx hpar ih =>
    intro fuel hf
    have hlen : (cs2 ++ [px2 ++ colons ++ e2.name]).length = cs2.length + 1 :=
      by simp
    rw [hlen] at hf
    simp only [walkFuel] at hf
    have hge := walkFuel_ge cs2.length
    rw [cptdWalk_append, ih fuel (by omega)]
    show cptdWalk d (fuel - cs2.length) p2.itimDN [px2 ++ colons ++ e2.name] =
      .ok e2.itimDN
    obtain ⟨g1, hg1⟩ : ∃ g1, fuel - cs2.length = g1 + 1 :=
      ⟨fuel - cs2.length - 1, by omega⟩
    have hg1b : walkFuel cs2.length + 3 ≤ g1 := by omega
    rw [hg1, cptdWalk,
      dn_to_path_reach hwf hrp (g1 + 1) (by omega)]
    simp only [Bind.bind, Except.bind]
    obtain ⟨g2, rfl⟩ : ∃ g2, g1 = g2 + 1 := ⟨g1 - 1, by omega⟩
    have hcptd : container_path_to_dn d g2 (containerPath org cs2) =
        .ok p2.itimDN := by
      obtain ⟨g3, rfl⟩ : ∃ g3, g2 = g3 + 1 := ⟨g2 - 1, by omega⟩
      have hchars := reach_comps_chars hwf hrp
      exact cptd_of_walk d g3
        (containerPath_split org cs2
          (fun ch hch =>
            ((hwf.2.2.2.2.1 _ (reach_mem hrp).2).2 ch hch).1)
          (fun c hc ch hch => (hchars c hc).2 ch hch))
        (hwf.2.2.2.2.1 _ (reach_mem hrp).2).1
        (reach_org_facts hrp).2
        (fun c hc => (hchars c hc).1)
        (ih g3 (by omega))
    rw [guo_reach d hwf hrp hm hpfx hpar g2 (by omega) hcptd]
    simp [cptdWalk]

/-- C5: Path/identifier round-trip.  For any container reachable in a
well-formed directory (in particular, sibling containers with the same
profile have unique names), converting its canonical hierarchical path to an
identifier with `container_path_to_dn` yields exactly the container's
identifier, and converting that identifier back with
`dn_to_container_path` yields the canonical path again; moreover the root
path `"//"` maps to the well-known root identifier and the root identifier
maps back to `"//"`.  The fuel hypotheses only bound the modelled mutual
recursion depth. -/
theorem claim_C5_round_trip (d : Dir) (org e : CEntity) (comps : List PyStr)
    (hwf : DirWF d) (hr : Reach d org e comps) (fuel1 fuel2 : Nat)
    (h1 : walkFuel comps.length + 1 ≤ fuel1)
    (h2 : comps.length + 1 ≤ fuel2) :
    container_path_to_dn d fuel1 (containerPath org comps) = .ok e.itimDN ∧
    dn_to_container_path d fuel2 e.itimDN = .ok (containerPath org comps) ∧
    container_path_to_dn d fuel1 slashes = .ok d.rootDn ∧
    dn_to_container_path d fuel2 d.rootDn = .ok slashes := by
  refine ⟨?_, dn_to_path_reach hwf hr fuel2 h2, cptd_root d fuel1 (by omega),
    by rw [dn_to_container_path, if_pos rfl]⟩
  obtain ⟨f, rfl⟩ : ∃ f, fuel1 = f + 1 := ⟨fuel1 - 1, by omega⟩
  have hchars := reach_comps_chars hwf hr
  exact cptd_of_walk d f
    (containerPath_split org comps
      (fun ch hch => ((hwf.2.2.2.2.1 _ (reach_mem hr).2).2 ch hch).1)
      (fun c hc ch hch => (hchars c hc).2 ch hch))
    (hwf.2.2.2.2.1 _ (reach_mem hr).2).1
    (reach_org_facts hr).2
    (fun c hc => (hchars c hc).1)
    (cptdWalk_reach d hwf hr f (by omega))

/-- Organization fixture for the round-trip witness. -/
def orgE : CEntity :=
  { itimDN := strC "o=A,dc=com", name := strC "A",
    profileName := strC "Organization",
    attributes := [(strC "erparent", [strC "dc=com"])] }

/-- Organizational-unit fixture, a child of the organization fixture. -/
def ouE : CEntity :=
  { itimDN := strC "ou=B,o=A,dc=com", name := strC "B",
    profileName := strC "OrganizationalUnit",
    attributes := [(strC "erparent", [strC "o=A,dc=com"])] }

/-- Location fixture, a child of the organizational-unit fixture. -/
def louE : CEntity :=
  { itimDN := strC "l=C,ou=B,o=A,dc=com", name := strC "C",
    profileName := strC "Location",
    attributes := [(strC "erparent", [strC "ou=B,o=A,dc=com"])] }

/-- A concrete three-level well-formed directory. -/
def dTest : Dir :=
  { rootDn := strC "dc=com", containers := [orgE, ouE, louE],
    orgMap := [(strC "A", strC "o=A,dc=com")] }

/-- Closed instance of the round-trip: in the concrete directory, the path
`//A//ou::B` resolves to `ou=B,o=A,dc=com` and back, and `//` resolves to
the root identifier `dc=com` and back. -/
theorem claim_C5_round_trip_witness :
    container_path_to_dn dTest 5
      (containerPath orgE [strC "ou" ++ colons ++ strC "B"]) =
        .ok ouE.itimDN ∧
    dn_to_container_path dTest 2 ouE.itimDN =
      .ok (containerPath orgE [strC "ou" ++ colons ++ strC "B"]) ∧
    container_path_to_dn dTest 5 slashes = .ok dTest.rootDn ∧
    dn_to_container_path dTest 2 dTest.rootDn = .ok slashes :=
  claim_C5_round_trip dTest orgE ouE [strC "ou" ++ colons ++ strC "B"]
    (by decide)
    (Reach.child (Reach.org (by decide) (by decide) (by decide))
      (by decide) (by decide) (by decide))
    5 2 (by decide) (by decide)

end ISIMWS
